import Mathlib

/-!
Verification development for the wiard windowing library.

Shallow embedding of the event dispatch and window-lifecycle subsystem:
geometry conversions (src/geometry.rs), the registry (src/context.rs),
the dispatch procedure (src/procedure.rs), the UI-thread message loop
(src/ui_thread.rs) and the receivers (src/window.rs).

Machine integers are modelled as Nat (u32/usize) and Int (i32/isize),
with explicit truncation where the source casts. Fallible operations
(Rust panics from unwrap and from user closures) are modelled with
Except / Option. Native Win32 reads (cursor position, rectangles, DPI,
IME strings, one-shot reply outcomes) are oracle inputs collected in an
Env record passed to the dispatch procedure, exactly one field per
native read in the source.
-/

namespace Wiard

/-! ## Geometry (src/geometry.rs) -/

/-- Coordinate space tags, mirroring geometry.rs coord module. -/
inductive Coord where
  | logical
  | physical
  | screen
deriving DecidableEq, Repr

/-- Phantom-tagged position, mirroring geometry.rs Position. -/
structure Position (α : Type) (c : Coord) where
  x : α
  y : α
deriving DecidableEq, Repr

/-- Phantom-tagged size, mirroring geometry.rs Size. -/
structure Size (α : Type) (c : Coord) where
  width : α
  height : α
deriving DecidableEq, Repr

/-- Phantom-tagged rectangle, mirroring geometry.rs Rect. -/
structure Rect (α : Type) (c : Coord) where
  left : α
  top : α
  right : α
  bottom : α
deriving DecidableEq, Repr

abbrev LogicalPosition (α : Type) := Position α Coord.logical
abbrev PhysicalPosition (α : Type) := Position α Coord.physical
abbrev ScreenPosition (α : Type) := Position α Coord.screen
abbrev LogicalSize (α : Type) := Size α Coord.logical
abbrev PhysicalSize (α : Type) := Size α Coord.physical
abbrev LogicalRect (α : Type) := Rect α Coord.logical
abbrev PhysicalRect (α : Type) := Rect α Coord.physical

/-- geometry.rs DEFAULT_DPI. -/
def DEFAULT_DPI : Nat := 96

/-- geometry.rs to_logical_value at the u32 instance: a * DEFAULT_DPI
/ dpi with truncating division, where the multiplication wraps modulo
2^32 (release-mode Rust semantics; debug mode panics instead of
wrapping, and either way the mathematical product is lost). The source
panics on dpi = 0, so theorems assume a positive dpi. -/
def to_logical_value (a dpi : Nat) : Nat :=
  a * DEFAULT_DPI % 4294967296 / dpi

/-- geometry.rs to_physical_value at the u32 instance: a * dpi /
DEFAULT_DPI with truncating division and the multiplication wrapping
modulo 2^32. -/
def to_physical_value (a dpi : Nat) : Nat :=
  a * dpi % 4294967296 / DEFAULT_DPI

/-- geometry.rs ToPhysical for LogicalSize. -/
def LogicalSize.to_physical (s : LogicalSize Nat) (dpi : Nat) : PhysicalSize Nat :=
  ⟨to_physical_value s.width dpi, to_physical_value s.height dpi⟩

/-- geometry.rs ToLogical for PhysicalSize. -/
def PhysicalSize.to_logical (s : PhysicalSize Nat) (dpi : Nat) : LogicalSize Nat :=
  ⟨to_logical_value s.width dpi, to_logical_value s.height dpi⟩

/-- geometry.rs ToPhysical for LogicalPosition. -/
def LogicalPosition.to_physical (p : LogicalPosition Nat) (dpi : Nat) : PhysicalPosition Nat :=
  ⟨to_physical_value p.x dpi, to_physical_value p.y dpi⟩

/-- geometry.rs ToLogical for PhysicalPosition. -/
def PhysicalPosition.to_logical (p : PhysicalPosition Nat) (dpi : Nat) : LogicalPosition Nat :=
  ⟨to_logical_value p.x dpi, to_logical_value p.y dpi⟩

/-! ## Bit-level parameter packing (src/utility.rs)

WPARAM is usize (modelled Nat), LPARAM is isize (modelled Int). The
helpers reinterpret 16-bit fields exactly as the source casts do. -/

/-- Two's-complement 64-bit pattern of an isize value. -/
def u64_of (l : Int) : Nat :=
  (l % 18446744073709551616).toNat

/-- Sign extension of a 16-bit pattern, mirroring an `as i16` cast
followed by widening. -/
def sext16 (n : Nat) : Int :=
  if n % 65536 < 32768 then (n % 65536 : Int) else (n % 65536 : Int) - 65536

/-- utility.rs loword: (x & 0xffff) as i16. -/
def loword (x : Int) : Int :=
  sext16 (u64_of x % 65536)

/-- utility.rs hiword: ((x >> 16) & 0xffff) as i16. -/
def hiword (x : Int) : Int :=
  sext16 (u64_of x / 65536 % 65536)

/-- utility.rs get_x_lparam: (lp.0 & 0xffff) as i16. -/
def get_x_lparam (lp : Int) : Int :=
  sext16 (u64_of lp % 65536)

/-- utility.rs get_y_lparam: ((lp.0 >> 16) & 0xffff) as i16. -/
def get_y_lparam (lp : Int) : Int :=
  sext16 (u64_of lp / 65536 % 65536)

/-- utility.rs get_xbutton_wparam: ((wp.0 >> 16) & 0xffff) as u16. -/
def get_xbutton_wparam (wp : Nat) : Nat :=
  wp / 65536 % 65536

/-- An i16 value reinterpreted as u32 (the `as _` to u32 in
lparam_to_size sign-extends the i16 first). -/
def int_as_u32 (v : Int) : Nat :=
  (v % 4294967296).toNat

/-- utility.rs lparam_to_point (signed 16-bit coordinates, widened). -/
def lparam_to_point (lparam : Int) : PhysicalPosition Int :=
  ⟨get_x_lparam lparam, get_y_lparam lparam⟩

/-- utility.rs lparam_to_size: the two packed i16 words cast to u32. -/
def lparam_to_size (lparam : Int) : PhysicalSize Nat :=
  ⟨int_as_u32 (get_x_lparam lparam), int_as_u32 (get_y_lparam lparam)⟩

/-! ## Input device types (src/device.rs) -/

inductive MouseButton where
  | Left
  | Right
  | Middle
  | Ex (n : Nat)
deriving DecidableEq, Repr

inductive ButtonState where
  | Pressed
  | Released
deriving DecidableEq, Repr

inductive KeyState where
  | Pressed
  | Released
deriving DecidableEq, Repr

inductive MouseWheelAxis where
  | Vertical
  | Horizontal
deriving DecidableEq, Repr

/-- device.rs MouseButtons: a u32 bit set. -/
structure MouseButtons where
  bits : Nat
deriving DecidableEq, Repr

/-- device.rs From WPARAM for MouseButtons: (wp & 0xffff) as u32. -/
def MouseButtons.from_wparam (wp : Nat) : MouseButtons :=
  ⟨wp % 65536⟩

structure MouseState where
  position : PhysicalPosition Int
  buttons : MouseButtons
deriving DecidableEq, Repr

/-- device.rs MouseState::from_params. -/
def MouseState.from_params (wparam : Nat) (lparam : Int) : MouseState :=
  ⟨lparam_to_point lparam, MouseButtons.from_wparam wparam⟩

/-- device.rs KeyCode: a virtual key plus a scan code. -/
structure KeyCode where
  vkey : Nat
  scan_code : Nat
deriving DecidableEq, Repr

inductive ResizingEdge where
  | Left
  | Right
  | Top
  | Bottom
  | TopLeft
  | TopRight
  | BottomLeft
  | BottomRight
deriving DecidableEq, Repr

inductive ColorMode where
  | System
  | Dark
  | Light
deriving DecidableEq, Repr

inductive ColorModeState where
  | Dark
  | Light
deriving DecidableEq, Repr

/-! ## Events (src/event.rs)

Round-trip variants (ImeBeginComposition, NcHitTest) carry a fresh
one-shot reply channel in the source; in this embedding the reply
outcome is an oracle input of the dispatch environment (Env below), and
the event payload carries the data fields the variant exposes. -/

inductive NotifyIconEvent where
  | CursorMoved (position : ScreenPosition Int)
  | MouseInput (button : MouseButton) (button_state : ButtonState) (position : ScreenPosition Int)
  | ContextMenu (position : ScreenPosition Int)
  | PopupOpen (position : ScreenPosition Int)
  | PopupClose
  | Select (position : ScreenPosition Int)
  | KeySelect (position : ScreenPosition Int)
  | Other (msg : Nat) (wparam : Nat) (lparam : Int)
deriving DecidableEq, Repr

inductive Event where
  | Activated
  | Inactivate
  | Draw (invalidate_rect : PhysicalRect Int)
  | Moved (position : ScreenPosition Int)
  | EnterResizing
  | Resizing (size : PhysicalSize Nat) (edge : ResizingEdge)
  | Resized (size : PhysicalSize Nat)
  | MouseInput (button : MouseButton) (button_state : ButtonState) (mouse_state : MouseState)
  | CursorMoved (mouse_state : MouseState)
  | CursorEntered (mouse_state : MouseState)
  | CursorLeft (mouse_state : MouseState)
  | MouseWheel (axis : MouseWheelAxis) (distance : Int) (mouse_state : MouseState)
  | KeyInput (key_code : KeyCode) (key_state : KeyState) (prev_pressed : Bool)
  | CharInput (c : Char)
  | ImeBeginComposition (dpi : Int)
  | ImeUpdateComposition (chars : List Char) (clauses : List (Nat × Nat)) (cursor_position : Nat)
  | ImeEndComposition (result : Option String)
  | ImeBeginCandidateList
  | ImeUpdateCandidateList (selection : Nat) (items : List String)
  | ImeEndCandidateList
  | MenuCommand (index : Nat) (handle : Nat)
  | ContextMenu (clicked_window : Nat) (position : ScreenPosition Int)
  | Minizmized
  | Maximized (size : PhysicalSize Nat)
  | Restored (size : PhysicalSize Nat)
  | DpiChanged (new_dpi : Nat)
  | DropFiles (paths : List String) (position : PhysicalPosition Int)
  | NcHitTest (position : PhysicalPosition Int)
  | NotifyIcon (id : Nat) (event : NotifyIconEvent)
  | ColorModeChanged (current : ColorModeState) (previous : ColorModeState)
  | CloseRequest (handle : Nat)
  | Closed
  | App (index : Nat) (value0 : Nat) (value1 : Int)
  | Other (msg : Nat) (wparam : Nat) (lparam : Int)
deriving DecidableEq, Repr

/-! ## Window kinds, panic payloads and channel elements (src/window.rs) -/

/-- A native window handle; opaque identity, modelled as Nat. -/
abbrev WindowHandle := Nat

/-- window.rs WindowKind: which public wrapper type the handle
corresponds to. -/
inductive WindowKind where
  | Window (handle : WindowHandle)
  | InnerWindow (parent : WindowHandle) (handle : WindowHandle)
deriving DecidableEq, Repr

def WindowKind.window_handle : WindowKind → WindowHandle
  | .Window h => h
  | .InnerWindow _ h => h

/-- A caught fault payload (Box of dyn Any in the source): either an
application panic message or an internal defect. -/
inductive PanicPayload where
  | message (s : String)
  | unwrap_none
  | unreachable_reached
deriving DecidableEq, Repr

/-- window.rs RecvEventOrPanic: element type of a receiver channel. -/
inductive RecvEventOrPanic where
  | event (e : Event × WindowKind)
  | panic (p : PanicPayload)
deriving DecidableEq, Repr

/-- window.rs WindowProps: the mutable per-window property bag. Handle
valued fields (imm_context, theme_menu, menu bar) are opaque ids. -/
structure WindowProps where
  imm_context : Nat
  visible_ime_candidate_window : Bool
  auto_close : Bool
  cursor : Nat
  parent : Option WindowHandle
  nc_hittest : Bool
  redrawing : Bool
  resizing : Bool
  minimized : Bool
  menu : Option Nat
  theme_menu : Nat
  color_mode : ColorMode
  color_mode_state : ColorModeState
deriving DecidableEq, Repr

/-- context.rs Object: one registry record per live window. event_tx is
the channel the record sends on, identified here by the receiver id it
was resolved from at registration time (each receiver owns exactly one
channel). -/
structure Object where
  kind : WindowKind
  event_tx : Nat
  props : WindowProps
  children : List WindowHandle
deriving DecidableEq, Repr

/-! ## Association list helpers (HashMap in the source) -/

def alist_get {α : Type} : List (Nat × α) → Nat → Option α
  | [], _ => none
  | (k2, v) :: rest, k => if k2 = k then some v else alist_get rest k

def alist_insert {α : Type} : List (Nat × α) → Nat → α → List (Nat × α)
  | [], k, v => [(k, v)]
  | (k2, w) :: rest, k, v =>
    if k2 = k then (k, v) :: rest else (k2, w) :: alist_insert rest k v

def alist_remove {α : Type} : List (Nat × α) → Nat → List (Nat × α)
  | [], _ => []
  | (k2, w) :: rest, k => if k2 = k then rest else (k2, w) :: alist_remove rest k

def alist_update {α : Type} : List (Nat × α) → Nat → (α → α) → List (Nat × α)
  | [], _, _ => []
  | (k2, w) :: rest, k, f =>
    if k2 = k then (k, f w) :: rest else (k2, w) :: alist_update rest k f

/-! ## Message constants

Win32 message identity numbers are fixed by the platform. The three
application-range constants live in src/messages.rs, which is absent
from the sources; they are modelled below. -/

def WM_DESTROY : Nat := 0x0002
def WM_SIZE : Nat := 0x0005
def WM_ACTIVATE : Nat := 0x0006
def WM_PAINT : Nat := 0x000F
def WM_CLOSE : Nat := 0x0010
def WM_SETTINGCHANGE : Nat := 0x001A
def WM_SETCURSOR : Nat := 0x0020
def WM_WINDOWPOSCHANGED : Nat := 0x0047
def WM_CONTEXTMENU : Nat := 0x007B
def WM_NCCREATE : Nat := 0x0081
def WM_NCHITTEST : Nat := 0x0084
def WM_NCPAINT : Nat := 0x0085
def WM_NCACTIVATE : Nat := 0x0086
def WM_UAHDRAWMENU : Nat := 0x0091
def WM_UAHDRAWMENUITEM : Nat := 0x0092
def WM_KEYDOWN : Nat := 0x0100
def WM_KEYUP : Nat := 0x0101
def WM_CHAR : Nat := 0x0102
def WM_IME_STARTCOMPOSITION : Nat := 0x010D
def WM_IME_ENDCOMPOSITION : Nat := 0x010E
def WM_IME_COMPOSITION : Nat := 0x010F
def WM_MENUCOMMAND : Nat := 0x0126
def WM_MOUSEMOVE : Nat := 0x0200
def WM_LBUTTONDOWN : Nat := 0x0201
def WM_LBUTTONUP : Nat := 0x0202
def WM_RBUTTONDOWN : Nat := 0x0204
def WM_RBUTTONUP : Nat := 0x0205
def WM_MBUTTONDOWN : Nat := 0x0207
def WM_MBUTTONUP : Nat := 0x0208
def WM_MOUSEWHEEL : Nat := 0x020A
def WM_XBUTTONDOWN : Nat := 0x020B
def WM_XBUTTONUP : Nat := 0x020C
def WM_MOUSEHWHEEL : Nat := 0x020E
def WM_SIZING : Nat := 0x0214
def WM_ENTERSIZEMOVE : Nat := 0x0231
def WM_EXITSIZEMOVE : Nat := 0x0232
def WM_DROPFILES : Nat := 0x0233
def WM_IME_SETCONTEXT : Nat := 0x0281
def WM_MOUSELEAVE : Nat := 0x02A3
def WM_DPICHANGED : Nat := 0x02E0
def WM_GETDPISCALEDSIZE : Nat := 0x02E4
def WM_APP : Nat := 0x8000

/-- Modelled from the spec: src/messages.rs is missing from the
sources; the UI thread owns an auxiliary wake message in the
application message range used to drain the task queue. -/
def WM_APP_POST_TASK : Nat := WM_APP

/-- Modelled from the spec: src/messages.rs is missing from the
sources; the notify-icon callback message in the application range,
listed after the application-event range arm in the dispatch match. -/
def WM_APP_NOTIFY_ICON : Nat := WM_APP + 1

/-- Modelled from the spec: src/messages.rs is missing from the
sources; the base of the application-defined event range. Dispatch
classifies messages in OFFSET_WM_APP..0xbfff as application events. -/
def OFFSET_WM_APP : Nat := WM_APP + 2

def SIZE_RESTORED : Nat := 0
def SIZE_MINIMIZED : Nat := 1
def SIZE_MAXIMIZED : Nat := 2
def SWP_NOMOVE : Nat := 0x0002
def WA_ACTIVE : Nat := 1
def WA_CLICKACTIVE : Nat := 2
def HTCLIENT : Nat := 1
def WMSZ_LEFT : Nat := 1
def WMSZ_RIGHT : Nat := 2
def WMSZ_TOP : Nat := 3
def WMSZ_TOPLEFT : Nat := 4
def WMSZ_TOPRIGHT : Nat := 5
def WMSZ_BOTTOM : Nat := 6
def WMSZ_BOTTOMLEFT : Nat := 7
def WMSZ_BOTTOMRIGHT : Nat := 8
def ISC_SHOWUICOMPOSITIONWINDOW : Nat := 0x80000000
def ISC_SHOWUIALLCANDIDATEWINDOW : Nat := 0x0000000F
def NIN_SELECT : Nat := 0x0400
def NINF_KEY : Nat := 0x0001
def NIN_KEYSELECT : Nat := NIN_SELECT + NINF_KEY
def NIN_POPUPOPEN : Nat := 0x0406
def NIN_POPUPCLOSE : Nat := 0x0407

/-- A PostMessageW call: (target window, message, wparam, lparam). -/
abbrev Posted := WindowHandle × Nat × Nat × Int

/-! ## The registry (src/context.rs)

ContextImpl is a process-wide singleton holding the window map, the
receiver channel map and the designated panic receiver id. The model
also carries the channel queues themselves (owned by the receivers in
the source) and a trace of every send call made on a window record's
event_tx, in order. -/

structure Ctx where
  window_map : List (WindowHandle × Object)
  event_txs : List (Nat × Nat)
  panic_receiver : Nat
  queues : List (Nat × List RecvEventOrPanic)
  trace : List (WindowHandle × Event)
deriving DecidableEq, Repr

/-- context.rs ContextImpl::new. -/
def ContextImpl.new : Ctx :=
  { window_map := []
    event_txs := []
    panic_receiver := 0
    queues := []
    trace := [] }

/-- A send call on a record's event_tx: enqueue on the target channel
when the receiving half is still alive (the source ignores the send
result), and log the call. -/
def Ctx.do_send (c : Ctx) (handle : WindowHandle) (tx : Nat) (event : Event)
    (kind : WindowKind) : Ctx :=
  { c with
    queues := alist_update c.queues tx (fun q => q ++ [RecvEventOrPanic.event (event, kind)])
    trace := c.trace ++ [(handle, event)] }

namespace Context

/-- context.rs Context::is_empty. -/
def is_empty (c : Ctx) : Bool :=
  c.window_map.isEmpty

/-- context.rs Context::register_window. The unwrap on the channel
lookup panics when the receiver id was never registered. -/
def register_window (kind : WindowKind) (props : WindowProps) (event_rx_id : Nat)
    (c : Ctx) : Except PanicPayload Ctx :=
  let c := if c.event_txs.isEmpty then { c with panic_receiver := event_rx_id } else c
  match alist_get c.event_txs event_rx_id with
  | none => .error PanicPayload.unwrap_none
  | some event_tx =>
    let window_handle := kind.window_handle
    let parent := props.parent
    let m := alist_insert c.window_map window_handle
      { kind := kind, event_tx := event_tx, props := props, children := [] }
    let m := match parent with
      | some p => alist_update m p
          (fun obj => { obj with children := obj.children ++ [window_handle] })
      | none => m
    .ok { c with window_map := m }

/-- context.rs Context::remove_window: removes and returns the record,
posting WM_CLOSE to every listed child. -/
def remove_window (handle : WindowHandle) (c : Ctx) :
    Option Object × Ctx × List Posted :=
  match alist_get c.window_map handle with
  | none => (none, { c with window_map := alist_remove c.window_map handle }, [])
  | some obj =>
    (some obj, { c with window_map := alist_remove c.window_map handle },
      obj.children.map (fun child => (child, WM_CLOSE, 0, (0 : Int))))

/-- context.rs Context::close_all_windows. -/
def close_all_windows (c : Ctx) : Ctx :=
  c.window_map.foldl (fun acc kv => acc.do_send kv.1 kv.2.event_tx Event.Closed kv.2.kind) c

/-- context.rs Context::window_is_none. -/
def window_is_none (handle : WindowHandle) (c : Ctx) : Bool :=
  (alist_get c.window_map handle).isNone

/-- context.rs Context::send_event: looks up the record; silently
returns when the window is gone. -/
def send_event (handle : WindowHandle) (event : Event) (c : Ctx) : Ctx :=
  match alist_get c.window_map handle with
  | none => c
  | some obj => c.do_send handle obj.event_tx event obj.kind

/-- context.rs Context::get_window_props: absent handle gives None and
the callback is never invoked. -/
def get_window_props {α : Type} (handle : WindowHandle) (f : WindowProps → α)
    (c : Ctx) : Option α :=
  match alist_get c.window_map handle with
  | none => none
  | some obj => some (f obj.props)

/-- context.rs Context::set_window_props: the lookup is unwrapped, so
an absent handle panics. -/
def set_window_props (handle : WindowHandle) (f : WindowProps → WindowProps)
    (c : Ctx) : Except PanicPayload Ctx :=
  match alist_get c.window_map handle with
  | none => .error PanicPayload.unwrap_none
  | some _ =>
    let m := alist_update c.window_map handle (fun obj => { obj with props := f obj.props })
    .ok { c with window_map := m }

/-- context.rs Context::register_event_tx. -/
def register_event_tx (id : Nat) (tx : Nat) (c : Ctx) : Ctx :=
  { c with event_txs := alist_insert c.event_txs id tx }

/-- context.rs Context::send_panic: closes all windows, shuts the text
service down (native collaborator), forwards the fault to the channel
registered under the designated panic receiver id, then clears the
channel map. -/
def send_panic (e : PanicPayload) (c : Ctx) : Ctx :=
  let c := close_all_windows c
  match alist_get c.event_txs c.panic_receiver with
  | some tx =>
    { c with
      queues := alist_update c.queues tx (fun q => q ++ [RecvEventOrPanic.panic e])
      event_txs := [] }
  | none => { c with event_txs := [] }

/-- context.rs Context::set_panic_receiver. -/
def set_panic_receiver (id : Nat) (c : Ctx) : Ctx :=
  { c with panic_receiver := id }

/-- context.rs Context::shutdown. -/
def shutdown (c : Ctx) : Ctx :=
  let c := close_all_windows c
  { c with event_txs := [] }

end Context

/-! ## Receivers (src/window.rs) -/

/-- window.rs gen_id: fetch_add(1) on a process-wide counter starting
at 0; returns the previous value. -/
def gen_id (n : Nat) : Nat × Nat :=
  (n, n + 1)

/-- Initial value of the gen_id counter (AtomicU64::new(0)). -/
def ID0 : Nat := 0

structure EventReceiver where
  id : Nat
deriving DecidableEq, Repr

/-- window.rs EventReceiver::new (the async constructor is identical):
draws a fresh id, creates an unbounded channel (a fresh empty queue,
identified by the receiver id) and registers the sending half. -/
def EventReceiver.new (id_state : Nat) (c : Ctx) : EventReceiver × Nat × Ctx :=
  let p := gen_id id_state
  let c := { c with queues := alist_insert c.queues p.1 [] }
  let c := Context.register_event_tx p.1 p.1 c
  (⟨p.1⟩, p.2, c)

/-- Outcome of a recv() call on a receiver whose pending queue is
given: an ordinary (event, window) pair, a re-raised fault (the source
calls resume_unwind on the carried payload), or no element yet. -/
inductive RecvOutcome where
  | event (e : Event × WindowKind)
  | panicked (p : PanicPayload)
  | pending
deriving DecidableEq, Repr

/-- window.rs EventReceiver::recv on the receiver's pending queue:
pops the next element; a carried fault is re-raised, never returned as
an ordinary event. -/
def EventReceiver.recv (q : List RecvEventOrPanic) : RecvOutcome × List RecvEventOrPanic :=
  match q with
  | [] => (RecvOutcome.pending, [])
  | RecvEventOrPanic.event e :: rest => (RecvOutcome.event e, rest)
  | RecvEventOrPanic.panic p :: rest => (RecvOutcome.panicked p, rest)

/-! ## The dispatch procedure (src/procedure.rs)

window_proc is the single native callback. Its thread-local state
(ENTERED, the raw-procedure-handler table keys, the cached system dark
mode flag) together with the registry forms the dispatch state St.
Native reads are oracle inputs in Env; native writes are logged as
NativeCall values. A Rust panic inside the body is an Except error;
every panicking point in the source (unwrap, unreachable) precedes its
handler's first state mutation, so the pre-call state is returned. -/

/-- Reinterpretation of a usize value as i32 (an `as i32` cast). -/
def as_i32 (n : Nat) : Int :=
  if n % 4294967296 < 2147483648 then (n % 4294967296 : Int)
  else (n % 4294967296 : Int) - 4294967296

/-- Dispatch-thread state: the registry plus the thread-locals of
procedure.rs (ENTERED, RAW_PROCEDURE_HANDLER keys, SYSTEM_DARK_MODE). -/
structure St where
  ctx : Ctx
  entered : Option WindowHandle
  raw_handlers : List WindowHandle
  system_dark_mode : Bool
deriving DecidableEq, Repr

/-- Native Win32 calls with observable intent made by dispatch. -/
inductive NativeCall where
  | trackMouseEvent (hwnd : WindowHandle)
  | setCapture (hwnd : WindowHandle)
  | releaseCapture
  | setCursor (cursor : Nat)
  | setCandidateWindowPosition (position : PhysicalPosition Int)
  | setWindowPos (left top width height : Int)
  | writeDpiScaledSize (cx cy : Int)
  | dragFinish
  | enableNonClientDpiScaling
  | fillMenuBackground
  | dwmSetDarkMode (dark : Bool)
  | redrawFrame
deriving DecidableEq, Repr

/-- The native return value of one dispatch call: either an explicit
LRESULT or a delegation to DefWindowProcW with the given arguments. -/
inductive LResult where
  | value (v : Int)
  | defWindowProc (msg : Nat) (wparam : Nat) (lparam : Int)
deriving DecidableEq, Repr

/-- Effects of one successful dispatch call. -/
structure PRes where
  st : St
  posted : List Posted
  native : List NativeCall
  quit : Bool
  result : LResult
deriving DecidableEq, Repr

/-- A result with no posts, no native writes and no quit signal. -/
def PRes.mk0 (st : St) (result : LResult) : PRes :=
  ⟨st, [], [], false, result⟩

/-- Oracle inputs for the native reads performed by dispatch: one field
per native read in procedure.rs, including the outcome of blocking on a
round-trip reply channel (none models the sender dropped or closed
without a send). -/
structure Env where
  update_rect : PhysicalRect Int
  cursor_pos : PhysicalPosition Int
  client_origin : ScreenPosition Int
  window_rect : PhysicalRect Int
  client_rect : PhysicalRect Int
  dpi : Nat
  sizing_rect : PhysicalRect Int
  windowpos_x : Int
  windowpos_y : Int
  windowpos_flags : Nat
  dpi_changed_rect : PhysicalRect Int
  adjusted_rect : PhysicalRect Int
  drop_paths : List String
  drop_position : PhysicalPosition Int
  ime_comp_string : Option (List Char)
  ime_comp_clauses : Option (List (Nat × Nat))
  ime_cursor_position : Nat
  ime_result : Option String
  ime_reply : Option (PhysicalPosition Int)
  hittest_reply : Option (Option Int)
  system_dark_mode : Bool
  setting_change_param : String
deriving Repr

/-- procedure.rs check_dark_mode, reading the cached SYSTEM_DARK_MODE
thread-local. -/
def check_dark_mode (color_mode : ColorMode) (system_dark : Bool) : Bool :=
  match color_mode with
  | ColorMode.Dark => true
  | ColorMode.System => system_dark
  | ColorMode.Light => false

/-- procedure.rs on_paint. -/
def on_paint (hwnd : WindowHandle) (env : Env) (st : St) : Except PanicPayload PRes := do
  let invalidate_rect := env.update_rect
  let c ← Context.set_window_props hwnd (fun p => { p with redrawing := false }) st.ctx
  let c := Context.send_event hwnd (Event.Draw invalidate_rect) c
  .ok (PRes.mk0 { st with ctx := c } (LResult.value 0))

/-- procedure.rs on_mouse_move: arms leave tracking and reports
CursorEntered on the first move with no prior enter recorded. -/
def on_mouse_move (hwnd : WindowHandle) (wparam : Nat) (lparam : Int)
    (st : St) : Except PanicPayload PRes :=
  match st.entered with
  | none =>
    let st := { st with entered := some hwnd }
    let c := Context.send_event hwnd
      (Event.CursorEntered (MouseState.from_params wparam lparam)) st.ctx
    .ok { st := { st with ctx := c }, posted := [],
          native := [NativeCall.trackMouseEvent hwnd], quit := false,
          result := LResult.value 0 }
  | some _ =>
    let c := Context.send_event hwnd
      (Event.CursorMoved (MouseState.from_params wparam lparam)) st.ctx
    .ok (PRes.mk0 { st with ctx := c } (LResult.value 0))

/-- procedure.rs on_set_cursor. -/
def on_set_cursor (hwnd : WindowHandle) (wparam : Nat) (lparam : Int)
    (st : St) : Except PanicPayload PRes :=
  if loword lparam ≠ (HTCLIENT : Int) then
    .ok (PRes.mk0 st (LResult.defWindowProc WM_SETCURSOR wparam lparam))
  else
    match Context.get_window_props hwnd (fun p => p.cursor) st.ctx with
    | none => .error PanicPayload.unwrap_none
    | some cursor =>
      .ok { st := st, posted := [], native := [NativeCall.setCursor cursor],
            quit := false, result := LResult.value 0 }

/-- procedure.rs on_mouse_leave. -/
def on_mouse_leave (hwnd : WindowHandle) (wparam : Nat) (env : Env)
    (st : St) : Except PanicPayload PRes :=
  let st := { st with entered := none }
  let c := Context.send_event hwnd
    (Event.CursorLeft ⟨env.cursor_pos, MouseButtons.from_wparam wparam⟩) st.ctx
  .ok (PRes.mk0 { st with ctx := c } (LResult.value 0))

/-- procedure.rs on_mouse_input. -/
def on_mouse_input (hwnd : WindowHandle) (button : MouseButton)
    (button_state : ButtonState) (wparam : Nat) (lparam : Int)
    (st : St) : Except PanicPayload PRes :=
  let capture := match button_state with
    | ButtonState.Pressed => NativeCall.setCapture hwnd
    | ButtonState.Released => NativeCall.releaseCapture
  let c := Context.send_event hwnd
    (Event.MouseInput button button_state (MouseState.from_params wparam lparam)) st.ctx
  .ok { st := { st with ctx := c }, posted := [], native := [capture],
        quit := false, result := LResult.value 0 }

/-- procedure.rs on_mouse_wheel: the packed screen position is
converted to client coordinates. -/
def on_mouse_wheel (hwnd : WindowHandle) (axis : MouseWheelAxis) (wparam : Nat)
    (lparam : Int) (env : Env) (st : St) : Except PanicPayload PRes :=
  let delta := hiword (as_i32 wparam)
  let mouse_state := MouseState.from_params wparam lparam
  let pt : PhysicalPosition Int :=
    ⟨mouse_state.position.x - env.client_origin.x,
     mouse_state.position.y - env.client_origin.y⟩
  let c := Context.send_event hwnd
    (Event.MouseWheel axis delta ⟨pt, mouse_state.buttons⟩) st.ctx
  .ok (PRes.mk0 { st with ctx := c } (LResult.value 0))

/-- procedure.rs on_key_input. -/
def on_key_input (hwnd : WindowHandle) (key_state : KeyState) (wparam : Nat)
    (lparam : Int) (st : St) : Except PanicPayload PRes :=
  let vkey := wparam % 65536
  let scan_code := u64_of lparam / 65536 % 128
  let prev_pressed := u64_of lparam / 1073741824 % 2 ≠ 0
  let c := Context.send_event hwnd
    (Event.KeyInput ⟨vkey, scan_code⟩ key_state prev_pressed) st.ctx
  .ok (PRes.mk0 { st with ctx := c } (LResult.value 0))

/-- procedure.rs on_char: only valid char codes produce an event. -/
def on_char (hwnd : WindowHandle) (wparam : Nat) (st : St) :
    Except PanicPayload PRes :=
  let w := wparam % 4294967296
  let c :=
    if w < 55296 ∨ (57344 ≤ w ∧ w < 1114112) then
      Context.send_event hwnd (Event.CharInput (Char.ofNat w)) st.ctx
    else
      st.ctx
  .ok (PRes.mk0 { st with ctx := c } (LResult.value 0))

/-- procedure.rs on_ime_set_context: masks the composition-window and,
unless configured visible, the candidate-window UI bits out of lparam
before delegating. -/
def on_ime_set_context (hwnd : WindowHandle) (wparam : Nat) (lparam : Int)
    (st : St) : Except PanicPayload PRes :=
  let value := u64_of lparam % 4294967296
  let value := value &&& (4294967295 - ISC_SHOWUICOMPOSITIONWINDOW)
  match Context.get_window_props hwnd (fun p => p.visible_ime_candidate_window) st.ctx with
  | none => .error PanicPayload.unwrap_none
  | some candidate =>
    let value := if ¬candidate then value &&& (4294967295 - ISC_SHOWUIALLCANDIDATEWINDOW) else value
    .ok (PRes.mk0 st (LResult.defWindowProc WM_IME_SETCONTEXT wparam (value : Int)))

/-- procedure.rs on_ime_start_composition: a round-trip event; blocks
on the one-shot reply, positioning the candidate window only when a
reply arrived, then delegates regardless. -/
def on_ime_start_composition (hwnd : WindowHandle) (wparam : Nat) (lparam : Int)
    (env : Env) (st : St) : Except PanicPayload PRes :=
  let dpi : Int := env.dpi
  let c := Context.send_event hwnd (Event.ImeBeginComposition dpi) st.ctx
  let native := match env.ime_reply with
    | some position => [NativeCall.setCandidateWindowPosition position]
    | none => []
  .ok { st := { st with ctx := c }, posted := [], native := native, quit := false,
        result := LResult.defWindowProc WM_IME_STARTCOMPOSITION wparam lparam }

/-- procedure.rs on_ime_composition. -/
def on_ime_composition (hwnd : WindowHandle) (env : Env) (st : St) :
    Except PanicPayload PRes :=
  match env.ime_comp_string with
  | none => .ok (PRes.mk0 st (LResult.value 0))
  | some s =>
    match env.ime_comp_clauses with
    | none => .ok (PRes.mk0 st (LResult.value 0))
    | some clauses =>
      let c := Context.send_event hwnd
        (Event.ImeUpdateComposition s clauses env.ime_cursor_position) st.ctx
      .ok (PRes.mk0 { st with ctx := c } (LResult.value 0))

/-- procedure.rs on_ime_end_composition. -/
def on_ime_end_composition (hwnd : WindowHandle) (wparam : Nat) (lparam : Int)
    (env : Env) (st : St) : Except PanicPayload PRes :=
  let c := Context.send_event hwnd (Event.ImeEndComposition env.ime_result) st.ctx
  .ok (PRes.mk0 { st with ctx := c } (LResult.defWindowProc WM_IME_ENDCOMPOSITION wparam lparam))

/-- procedure.rs on_sizing: reports the client size implied by the
drag rectangle; an unknown edge code is unreachable in the source. -/
def on_sizing (hwnd : WindowHandle) (wparam : Nat) (lparam : Int) (env : Env)
    (st : St) : Except PanicPayload PRes :=
  let dw := (env.window_rect.right - env.window_rect.left)
    - (env.client_rect.right - env.client_rect.left)
  let dh := (env.window_rect.bottom - env.window_rect.top)
    - (env.client_rect.bottom - env.client_rect.top)
  let rc := env.sizing_rect
  let size : PhysicalSize Nat :=
    ⟨int_as_u32 (rc.right - rc.left - dw), int_as_u32 (rc.bottom - rc.top - dh)⟩
  let edge : Except PanicPayload ResizingEdge :=
    if wparam % 4294967296 = WMSZ_LEFT then .ok ResizingEdge.Left
    else if wparam % 4294967296 = WMSZ_RIGHT then .ok ResizingEdge.Right
    else if wparam % 4294967296 = WMSZ_TOP then .ok ResizingEdge.Top
    else if wparam % 4294967296 = WMSZ_BOTTOM then .ok ResizingEdge.Bottom
    else if wparam % 4294967296 = WMSZ_TOPLEFT then .ok ResizingEdge.TopLeft
    else if wparam % 4294967296 = WMSZ_TOPRIGHT then .ok ResizingEdge.TopRight
    else if wparam % 4294967296 = WMSZ_BOTTOMLEFT then .ok ResizingEdge.BottomLeft
    else if wparam % 4294967296 = WMSZ_BOTTOMRIGHT then .ok ResizingEdge.BottomRight
    else .error PanicPayload.unreachable_reached
  match edge with
  | .error e => .error e
  | .ok edge =>
    let c := Context.send_event hwnd (Event.Resizing size edge) st.ctx
    .ok (PRes.mk0 { st with ctx := c } (LResult.defWindowProc WM_SIZING wparam lparam))

/-- procedure.rs on_size: minimize sets the minimized flag; the
restored code reports Restored only from the minimized state and
Resized only outside a modal resize-drag. -/
def on_size (hwnd : WindowHandle) (wparam : Nat) (lparam : Int) (st : St) :
    Except PanicPayload PRes :=
  let w := wparam % 4294967296
  if w = SIZE_MINIMIZED then do
    let c ← Context.set_window_props hwnd (fun p => { p with minimized := true }) st.ctx
    let c := Context.send_event hwnd Event.Minizmized c
    .ok (PRes.mk0 { st with ctx := c } (LResult.value 0))
  else if w = SIZE_MAXIMIZED then
    let size := lparam_to_size lparam
    let c := Context.send_event hwnd (Event.Maximized size) st.ctx
    .ok (PRes.mk0 { st with ctx := c } (LResult.value 0))
  else if w = SIZE_RESTORED then
    let flags := (Context.get_window_props hwnd (fun p => (p.resizing, p.minimized)) st.ctx).getD
      (false, false)
    let size := lparam_to_size lparam
    if flags.2 then do
      let c := Context.send_event hwnd (Event.Restored size) st.ctx
      let c ← Context.set_window_props hwnd (fun p => { p with minimized := false }) c
      .ok (PRes.mk0 { st with ctx := c } (LResult.value 0))
    else if ¬flags.1 then
      let c := Context.send_event hwnd (Event.Resized size) st.ctx
      .ok (PRes.mk0 { st with ctx := c } (LResult.value 0))
    else
      .ok (PRes.mk0 st (LResult.value 0))
  else
    .ok (PRes.mk0 st (LResult.value 0))

/-- procedure.rs on_window_pos_changed. -/
def on_window_pos_changed (hwnd : WindowHandle) (wparam : Nat) (lparam : Int)
    (env : Env) (st : St) : Except PanicPayload PRes :=
  let c :=
    if env.windowpos_flags &&& SWP_NOMOVE = 0 then
      Context.send_event hwnd
        (Event.Moved ⟨env.windowpos_x, env.windowpos_y⟩) st.ctx
    else
      st.ctx
  .ok (PRes.mk0 { st with ctx := c } (LResult.defWindowProc WM_WINDOWPOSCHANGED wparam lparam))

/-- procedure.rs on_enter_size_move: sets the resizing flag. -/
def on_enter_size_move (hwnd : WindowHandle) (wparam : Nat) (lparam : Int)
    (st : St) : Except PanicPayload PRes := do
  let c ← Context.set_window_props hwnd (fun p => { p with resizing := true }) st.ctx
  let c := Context.send_event hwnd Event.EnterResizing c
  .ok (PRes.mk0 { st with ctx := c } (LResult.defWindowProc WM_ENTERSIZEMOVE wparam lparam))

/-- procedure.rs on_exit_size_move: clears the resizing flag and
reports the final size. -/
def on_exit_size_move (hwnd : WindowHandle) (wparam : Nat) (lparam : Int)
    (env : Env) (st : St) : Except PanicPayload PRes := do
  let size : PhysicalSize Nat :=
    ⟨int_as_u32 (env.client_rect.right - env.client_rect.left),
     int_as_u32 (env.client_rect.bottom - env.client_rect.top)⟩
  let c ← Context.set_window_props hwnd (fun p => { p with resizing := false }) st.ctx
  let c := Context.send_event hwnd (Event.Resized size) c
  .ok (PRes.mk0 { st with ctx := c } (LResult.defWindowProc WM_EXITSIZEMOVE wparam lparam))

/-- procedure.rs on_activate. -/
def on_activate (hwnd : WindowHandle) (wparam : Nat) (st : St) :
    Except PanicPayload PRes :=
  let active := (wparam % 4294967296) &&& (WA_ACTIVE ||| WA_CLICKACTIVE) ≠ 0
  let c :=
    if active then Context.send_event hwnd Event.Activated st.ctx
    else Context.send_event hwnd Event.Inactivate st.ctx
  .ok (PRes.mk0 { st with ctx := c } (LResult.value 0))

/-- procedure.rs on_dpi_changed: repositions to the suggested rectangle
and reports the new DPI from the high word of wparam. -/
def on_dpi_changed (hwnd : WindowHandle) (wparam : Nat) (env : Env) (st : St) :
    Except PanicPayload PRes :=
  let rc := env.dpi_changed_rect
  let new_dpi := int_as_u32 (hiword (as_i32 wparam))
  let c := Context.send_event hwnd (Event.DpiChanged new_dpi) st.ctx
  .ok { st := { st with ctx := c }, posted := [],
        native := [NativeCall.setWindowPos rc.left rc.top (rc.right - rc.left) (rc.bottom - rc.top)],
        quit := false, result := LResult.value 0 }

/-- procedure.rs on_get_dpi_scaled_size: scales the client size by the
DPI ratio, adjusts to the outer rectangle and writes it back. -/
def on_get_dpi_scaled_size (hwnd : WindowHandle) (wparam : Nat) (env : Env)
    (st : St) : Except PanicPayload PRes :=
  let prev_dpi : Int := env.dpi
  let next_dpi := as_i32 wparam
  let rc := env.client_rect
  let _size : PhysicalSize Nat :=
    ⟨int_as_u32 (Int.tdiv ((rc.right - rc.left) * next_dpi) prev_dpi),
     int_as_u32 (Int.tdiv ((rc.bottom - rc.top) * next_dpi) prev_dpi)⟩
  let adj := env.adjusted_rect
  .ok { st := st, posted := [],
        native := [NativeCall.writeDpiScaledSize (adj.right - adj.left) (adj.bottom - adj.top)],
        quit := false, result := LResult.value 1 }

/-- procedure.rs on_drop_files. -/
def on_drop_files (hwnd : WindowHandle) (env : Env) (st : St) :
    Except PanicPayload PRes :=
  let c := Context.send_event hwnd
    (Event.DropFiles env.drop_paths env.drop_position) st.ctx
  .ok { st := { st with ctx := c }, posted := [], native := [NativeCall.dragFinish],
        quit := false, result := LResult.value 0 }

/-- procedure.rs on_nc_create. -/
def on_nc_create (hwnd : WindowHandle) (wparam : Nat) (lparam : Int) (st : St) :
    Except PanicPayload PRes :=
  .ok { st := st, posted := [], native := [NativeCall.enableNonClientDpiScaling],
        quit := false, result := LResult.defWindowProc WM_NCCREATE wparam lparam }

/-- procedure.rs on_nc_hittest: delegates unless hooking is enabled;
otherwise a round-trip event whose missing or empty reply falls back to
the platform default handler. -/
def on_nc_hittest (hwnd : WindowHandle) (wparam : Nat) (lparam : Int) (env : Env)
    (st : St) : Except PanicPayload PRes :=
  let hook := Context.get_window_props hwnd (fun p => p.nc_hittest) st.ctx
  if ¬hook.getD false then
    .ok (PRes.mk0 st (LResult.defWindowProc WM_NCHITTEST wparam lparam))
  else
    let c := Context.send_event hwnd (Event.NcHitTest (lparam_to_point lparam)) st.ctx
    match env.hittest_reply with
    | some (some value) =>
      .ok (PRes.mk0 { st with ctx := c } (LResult.value value))
    | _ =>
      .ok (PRes.mk0 { st with ctx := c } (LResult.defWindowProc WM_NCHITTEST wparam lparam))

/-- procedure.rs on_close: the default close policy delegates (letting
the native destroy proceed); the manual policy reports CloseRequest
instead. -/
def on_close (hwnd : WindowHandle) (wparam : Nat) (lparam : Int) (st : St) :
    Except PanicPayload PRes :=
  match Context.get_window_props hwnd (fun p => p.auto_close) st.ctx with
  | none => .error PanicPayload.unwrap_none
  | some auto_close =>
    if auto_close then
      .ok (PRes.mk0 st (LResult.defWindowProc WM_CLOSE wparam lparam))
    else
      let c := Context.send_event hwnd (Event.CloseRequest hwnd) st.ctx
      .ok (PRes.mk0 { st with ctx := c } (LResult.value 0))

/-- procedure.rs on_destroy: sends Closed, removes the registry record
(posting WM_CLOSE to each child), and posts the quit signal exactly
when the registry became empty. -/
def on_destroy (hwnd : WindowHandle) (st : St) : Except PanicPayload PRes :=
  let st := { st with raw_handlers := st.raw_handlers.erase hwnd }
  let c := Context.send_event hwnd Event.Closed st.ctx
  let r := Context.remove_window hwnd c
  let c := r.2.1
  let quit := Context.is_empty c
  .ok { st := { st with ctx := c }, posted := r.2.2, native := [], quit := quit,
        result := LResult.value 0 }

/-- procedure.rs on_app: decodes an application-range message into an
App event. -/
def on_app (hwnd : WindowHandle) (msg : Nat) (wparam : Nat) (lparam : Int)
    (st : St) : Except PanicPayload PRes :=
  let c := Context.send_event hwnd
    (Event.App (msg - OFFSET_WM_APP) wparam lparam) st.ctx
  .ok (PRes.mk0 { st with ctx := c } (LResult.value 0))

/-- procedure.rs on_notify_icon. -/
def on_notify_icon (hwnd : WindowHandle) (wparam : Nat) (lparam : Int)
    (st : St) : Except PanicPayload PRes :=
  let msg := int_as_u32 (loword lparam)
  let id := int_as_u32 (hiword lparam)
  let pos_param : Int := wparam
  let position : ScreenPosition Int :=
    ⟨get_x_lparam pos_param, get_y_lparam pos_param⟩
  let event :=
    if msg = WM_MOUSEMOVE then NotifyIconEvent.CursorMoved position
    else if msg = WM_LBUTTONDOWN then
      NotifyIconEvent.MouseInput MouseButton.Left ButtonState.Pressed position
    else if msg = WM_RBUTTONDOWN then
      NotifyIconEvent.MouseInput MouseButton.Right ButtonState.Pressed position
    else if msg = WM_MBUTTONDOWN then
      NotifyIconEvent.MouseInput MouseButton.Middle ButtonState.Pressed position
    else if msg = WM_LBUTTONUP then
      NotifyIconEvent.MouseInput MouseButton.Left ButtonState.Released position
    else if msg = WM_RBUTTONUP then
      NotifyIconEvent.MouseInput MouseButton.Right ButtonState.Released position
    else if msg = WM_MBUTTONUP then
      NotifyIconEvent.MouseInput MouseButton.Middle ButtonState.Released position
    else if msg = WM_CONTEXTMENU then NotifyIconEvent.ContextMenu position
    else if msg = NIN_POPUPOPEN then NotifyIconEvent.PopupOpen position
    else if msg = NIN_POPUPCLOSE then NotifyIconEvent.PopupClose
    else if msg = NIN_SELECT then NotifyIconEvent.Select position
    else if msg = NIN_KEYSELECT then NotifyIconEvent.KeySelect position
    else NotifyIconEvent.Other msg wparam lparam
  let c := Context.send_event hwnd (Event.NotifyIcon id event) st.ctx
  .ok (PRes.mk0 { st with ctx := c } (LResult.value 0))

/-- procedure.rs on_menu_command. -/
def on_menu_command (hwnd : WindowHandle) (wparam : Nat) (lparam : Int)
    (st : St) : Except PanicPayload PRes :=
  let menu := u64_of lparam
  let c := Context.send_event hwnd (Event.MenuCommand wparam menu) st.ctx
  .ok (PRes.mk0 { st with ctx := c } (LResult.defWindowProc WM_MENUCOMMAND wparam lparam))

/-- procedure.rs on_context_menu. -/
def on_context_menu (hwnd : WindowHandle) (wparam : Nat) (lparam : Int)
    (st : St) : Except PanicPayload PRes :=
  let c := Context.send_event hwnd
    (Event.ContextMenu wparam ⟨get_x_lparam lparam, get_y_lparam lparam⟩) st.ctx
  .ok (PRes.mk0 { st with ctx := c } (LResult.defWindowProc WM_CONTEXTMENU wparam lparam))

/-- procedure.rs on_uah_draw_menu. -/
def on_uah_draw_menu (hwnd : WindowHandle) (wparam : Nat) (lparam : Int)
    (st : St) : Except PanicPayload PRes :=
  match Context.get_window_props hwnd (fun p => p.color_mode) st.ctx with
  | none => .error PanicPayload.unwrap_none
  | some color_mode =>
    if ¬check_dark_mode color_mode st.system_dark_mode then
      .ok (PRes.mk0 st (LResult.defWindowProc WM_UAHDRAWMENU wparam lparam))
    else
      .ok { st := st, posted := [], native := [NativeCall.fillMenuBackground],
            quit := false, result := LResult.value 0 }

/-- procedure.rs on_uah_draw_menu_item. -/
def on_uah_draw_menu_item (hwnd : WindowHandle) (wparam : Nat) (lparam : Int)
    (st : St) : Except PanicPayload PRes :=
  match Context.get_window_props hwnd (fun p => p.color_mode) st.ctx with
  | none => .error PanicPayload.unwrap_none
  | some color_mode =>
    if ¬check_dark_mode color_mode st.system_dark_mode then
      .ok (PRes.mk0 st (LResult.defWindowProc WM_UAHDRAWMENUITEM wparam lparam))
    else
      match Context.get_window_props hwnd (fun p => p.theme_menu) st.ctx with
      | none => .error PanicPayload.unwrap_none
      | some _theme =>
        .ok { st := st, posted := [], native := [NativeCall.fillMenuBackground],
              quit := false, result := LResult.value 0 }

/-- procedure.rs draw_menu_bar_border_line. -/
def draw_menu_bar_border_line (hwnd : WindowHandle) (st : St) :
    Except PanicPayload (List NativeCall) :=
  match Context.get_window_props hwnd (fun p => p.color_mode) st.ctx with
  | none => .error PanicPayload.unwrap_none
  | some color_mode =>
    if ¬check_dark_mode color_mode st.system_dark_mode then .ok []
    else .ok [NativeCall.fillMenuBackground]

/-- procedure.rs on_nc_paint: delegate first, then paint the menu-bar
border line. -/
def on_nc_paint (hwnd : WindowHandle) (wparam : Nat) (lparam : Int) (st : St) :
    Except PanicPayload PRes := do
  let native ← draw_menu_bar_border_line hwnd st
  .ok { st := st, posted := [], native := native, quit := false,
        result := LResult.defWindowProc WM_NCPAINT wparam lparam }

/-- procedure.rs on_nc_activate. -/
def on_nc_activate (hwnd : WindowHandle) (wparam : Nat) (lparam : Int) (st : St) :
    Except PanicPayload PRes := do
  let native ← draw_menu_bar_border_line hwnd st
  .ok { st := st, posted := [], native := native, quit := false,
        result := LResult.defWindowProc WM_NCACTIVATE wparam lparam }

/-- procedure.rs change_color_mode: recomputes the effective color-mode
state, returning without any event when it is unchanged. -/
def change_color_mode (hwnd : WindowHandle) (color_mode : ColorMode) (env : Env)
    (st : St) : Except PanicPayload (St × List NativeCall) := do
  match Context.get_window_props hwnd (fun p => p.color_mode_state) st.ctx with
  | none => .error PanicPayload.unwrap_none
  | some prev_color_mode_state =>
    let system_dark_mode := env.system_dark_mode
    let color_mode_state :=
      match color_mode with
      | ColorMode.Dark => ColorModeState.Dark
      | ColorMode.System =>
        if system_dark_mode then ColorModeState.Dark else ColorModeState.Light
      | ColorMode.Light => ColorModeState.Light
    if color_mode_state = prev_color_mode_state then
      .ok (st, [])
    else do
      let st := { st with system_dark_mode := system_dark_mode }
      let c ← Context.set_window_props hwnd
        (fun p => { p with color_mode := color_mode, color_mode_state := color_mode_state }) st.ctx
      let c := Context.send_event hwnd
        (Event.ColorModeChanged color_mode_state prev_color_mode_state) c
      .ok ({ st with ctx := c },
        [NativeCall.dwmSetDarkMode (color_mode_state = ColorModeState.Dark),
         NativeCall.redrawFrame])

/-- procedure.rs on_setting_change. -/
def on_setting_change (hwnd : WindowHandle) (wparam : Nat) (lparam : Int)
    (env : Env) (st : St) : Except PanicPayload PRes :=
  if lparam = 0 then
    .ok (PRes.mk0 st (LResult.defWindowProc WM_SETTINGCHANGE wparam lparam))
  else if env.setting_change_param = "ImmersiveColorSet" then
    match Context.get_window_props hwnd (fun p => p.color_mode) st.ctx with
    | none => .error PanicPayload.unwrap_none
    | some color_mode => do
      let r ← change_color_mode hwnd color_mode env st
      .ok { st := r.1, posted := [], native := r.2, quit := false,
            result := LResult.value 0 }
  else
    .ok (PRes.mk0 st (LResult.value 0))

/-- procedure.rs wparam_to_button: other xbutton codes are unreachable
in the source. -/
def wparam_to_button (wparam : Nat) : Except PanicPayload MouseButton :=
  if get_xbutton_wparam wparam = 1 then .ok (MouseButton.Ex 0)
  else if get_xbutton_wparam wparam = 2 then .ok (MouseButton.Ex 1)
  else .error PanicPayload.unreachable_reached

/-- procedure.rs window_proc body: the match over the message identity,
in source arm order (the application-event range arm precedes the
notify-icon arm). Raw procedure handlers are invoked first; they are
application observers with no effect on the modelled state. -/
def window_proc_body (hwnd : WindowHandle) (msg : Nat) (wparam : Nat)
    (lparam : Int) (env : Env) (st : St) : Except PanicPayload PRes :=
  if msg = WM_PAINT then on_paint hwnd env st
  else if msg = WM_NCPAINT then on_nc_paint hwnd wparam lparam st
  else if msg = WM_UAHDRAWMENU then on_uah_draw_menu hwnd wparam lparam st
  else if msg = WM_UAHDRAWMENUITEM then on_uah_draw_menu_item hwnd wparam lparam st
  else if msg = WM_MOUSEMOVE then on_mouse_move hwnd wparam lparam st
  else if msg = WM_SETCURSOR then on_set_cursor hwnd wparam lparam st
  else if msg = WM_MOUSELEAVE then on_mouse_leave hwnd wparam env st
  else if msg = WM_LBUTTONDOWN then do
    let r ← on_mouse_input hwnd MouseButton.Left ButtonState.Pressed wparam lparam st
    .ok { r with result := LResult.defWindowProc WM_LBUTTONDOWN wparam lparam }
  else if msg = WM_RBUTTONDOWN then
    on_mouse_input hwnd MouseButton.Right ButtonState.Pressed wparam lparam st
  else if msg = WM_MBUTTONDOWN then
    on_mouse_input hwnd MouseButton.Middle ButtonState.Pressed wparam lparam st
  else if msg = WM_XBUTTONDOWN then do
    let button ← wparam_to_button wparam
    on_mouse_input hwnd button ButtonState.Pressed wparam lparam st
  else if msg = WM_LBUTTONUP then
    on_mouse_input hwnd MouseButton.Left ButtonState.Released wparam lparam st
  else if msg = WM_RBUTTONUP then do
    let r ← on_mouse_input hwnd MouseButton.Right ButtonState.Released wparam lparam st
    .ok { r with result := LResult.defWindowProc msg wparam lparam }
  else if msg = WM_MBUTTONUP then do
    let r ← on_mouse_input hwnd MouseButton.Middle ButtonState.Released wparam lparam st
    .ok { r with result := LResult.defWindowProc msg wparam lparam }
  else if msg = WM_XBUTTONUP then do
    let button ← wparam_to_button wparam
    on_mouse_input hwnd button ButtonState.Released wparam lparam st
  else if msg = WM_MOUSEWHEEL then
    on_mouse_wheel hwnd MouseWheelAxis.Vertical wparam lparam env st
  else if msg = WM_MOUSEHWHEEL then
    on_mouse_wheel hwnd MouseWheelAxis.Horizontal wparam lparam env st
  else if OFFSET_WM_APP ≤ msg ∧ msg < 0xbfff then
    on_app hwnd msg wparam lparam st
  else if msg = WM_KEYDOWN then on_key_input hwnd KeyState.Pressed wparam lparam st
  else if msg = WM_KEYUP then on_key_input hwnd KeyState.Released wparam lparam st
  else if msg = WM_CHAR then on_char hwnd wparam st
  else if msg = WM_APP_NOTIFY_ICON then on_notify_icon hwnd wparam lparam st
  else if msg = WM_IME_SETCONTEXT then on_ime_set_context hwnd wparam lparam st
  else if msg = WM_IME_STARTCOMPOSITION then
    on_ime_start_composition hwnd wparam lparam env st
  else if msg = WM_IME_COMPOSITION then on_ime_composition hwnd env st
  else if msg = WM_IME_ENDCOMPOSITION then
    on_ime_end_composition hwnd wparam lparam env st
  else if msg = WM_SIZING then on_sizing hwnd wparam lparam env st
  else if msg = WM_SIZE then on_size hwnd wparam lparam st
  else if msg = WM_WINDOWPOSCHANGED then
    on_window_pos_changed hwnd wparam lparam env st
  else if msg = WM_ENTERSIZEMOVE then on_enter_size_move hwnd wparam lparam st
  else if msg = WM_EXITSIZEMOVE then on_exit_size_move hwnd wparam lparam env st
  else if msg = WM_ACTIVATE then on_activate hwnd wparam st
  else if msg = WM_NCACTIVATE then on_nc_activate hwnd wparam lparam st
  else if msg = WM_DPICHANGED then on_dpi_changed hwnd wparam env st
  else if msg = WM_GETDPISCALEDSIZE then on_get_dpi_scaled_size hwnd wparam env st
  else if msg = WM_DROPFILES then on_drop_files hwnd env st
  else if msg = WM_NCCREATE then on_nc_create hwnd wparam lparam st
  else if msg = WM_NCHITTEST then on_nc_hittest hwnd wparam lparam env st
  else if msg = WM_MENUCOMMAND then on_menu_command hwnd wparam lparam st
  else if msg = WM_CONTEXTMENU then on_context_menu hwnd wparam lparam st
  else if msg = WM_SETTINGCHANGE then on_setting_change hwnd wparam lparam env st
  else if msg = WM_CLOSE then on_close hwnd wparam lparam st
  else if msg = WM_DESTROY then on_destroy hwnd st
  else
    let c := Context.send_event hwnd (Event.Other msg wparam lparam) st.ctx
    .ok (PRes.mk0 { st with ctx := c } (LResult.defWindowProc msg wparam lparam))

/-- Result of the fault-catching window_proc wrapper: the UNWIND
thread-local slot holds a caught fault, and the native caller receives
a benign LRESULT(0) in that case. -/
structure CaughtResult where
  st : St
  unwind : Option PanicPayload
  posted : List Posted
  native : List NativeCall
  quit : Bool
  result : LResult
deriving DecidableEq, Repr

/-- procedure.rs window_proc: the body wrapped in catch_unwind; a
caught fault is stored in the UNWIND slot and LRESULT(0) returned so
the native call stack is never unwound. Every panicking point of the
body precedes its handler's first state mutation, so the entry state is
kept on a fault. -/
def window_proc (hwnd : WindowHandle) (msg : Nat) (wparam : Nat) (lparam : Int)
    (env : Env) (st : St) : CaughtResult :=
  match window_proc_body hwnd msg wparam lparam env st with
  | .ok r => ⟨r.st, none, r.posted, r.native, r.quit, r.result⟩
  | .error e => ⟨st, some e, [], [], false, LResult.value 0⟩

/-! ## UI thread and task queue (src/ui_thread.rs) -/

/-- A task closure posted to the UI thread: runs against the dispatch
state and either completes or panics with a payload, retaining whatever
mutations it made before panicking. -/
abbrev Task := St → St × Option PanicPayload

/-- The drain of the task queue inside one catch_unwind boundary:
closures run in FIFO order until one panics. -/
def run_tasks : List Task → St → St × Option PanicPayload
  | [], st => (st, none)
  | t :: rest, st =>
    match t st with
    | (st2, some e) => (st2, some e)
    | (st2, none) => run_tasks rest st2

/-- Modelled from the spec: Context::cleanup is called by the message
loop on the quit signal but is absent from the sources (context.rs
carries Context::shutdown); per the spec the loop's shutdown path
clears the registry and the channel table. -/
def Context.cleanup (c : Ctx) : Ctx :=
  { c with window_map := [], event_txs := [] }

/-- One iteration of the ui_thread.rs message loop, as seen by its
state: the quit signal (GetMessageW returned 0 or -1), the auxiliary
task-wake message with the drained queue, or a native message handed to
the dispatch procedure. -/
inductive LoopEvent where
  | quitMsg (exit_code : Nat)
  | taskWake (tasks : List Task)
  | windowMsg (hwnd : WindowHandle) (msg : Nat) (wparam : Nat) (lparam : Int) (env : Env)

/-- Outcome of one loop iteration: keep looping, or break with the
thread's exit code. -/
inductive LoopStep where
  | continue (st : St)
  | exit (code : Nat) (st : St)
deriving DecidableEq

/-- ui_thread.rs Thread::new main loop, one iteration. A fault caught
while draining tasks, or found in the UNWIND slot after dispatch, is
handed to Context::send_panic and the loop breaks with code 1. -/
def ui_loop_step (ev : LoopEvent) (st : St) : LoopStep :=
  match ev with
  | .quitMsg exit_code =>
    .exit exit_code { st with ctx := Context.cleanup st.ctx }
  | .taskWake tasks =>
    match run_tasks tasks st with
    | (st2, some e) => .exit 1 { st2 with ctx := Context.send_panic e st2.ctx }
    | (st2, none) => .continue st2
  | .windowMsg hwnd msg wparam lparam env =>
    let r := window_proc hwnd msg wparam lparam env st
    match r.unwind with
    | some e => .exit 1 { r.st with ctx := Context.send_panic e r.st.ctx }
    | none => .continue r.st

/-! ## Window instance methods (src/window.rs) -/

namespace methods

/-- window.rs methods::post_app_event: encodes the three field values
as a native message posted through the native queue. -/
def post_app_event (handle : WindowHandle) (index : Nat) (value0 : Nat)
    (value1 : Int) : Posted :=
  (handle, OFFSET_WM_APP + index, value0, value1)

/-- window.rs methods::close: posts WM_CLOSE. -/
def close (handle : WindowHandle) : Posted :=
  (handle, WM_CLOSE, 0, 0)

/-- window.rs methods::set_cursor: the task it posts to the UI thread;
sets the cursor natively, then writes the property bag through
Context::set_window_props (which panics for an untracked handle). -/
def set_cursor_task (handle : WindowHandle) (cursor : Nat) : Task :=
  fun st =>
    match Context.set_window_props handle (fun p => { p with cursor := cursor }) st.ctx with
    | .ok c => ({ st with ctx := c }, none)
    | .error e => (st, some e)

end methods

/-! ## Helper lemmas on association lists -/

theorem alist_get_update_eq {α : Type} (l : List (Nat × α)) (k : Nat) (f : α → α) :
    alist_get (alist_update l k f) k = (alist_get l k).map f := by
  induction l with
  | nil => simp [alist_get, alist_update]
  | cons hd tl ih =>
    obtain ⟨k2, w⟩ := hd
    by_cases h : k2 = k
    · subst h
      simp [alist_update, alist_get]
    · simp [alist_update, alist_get, h, ih]

theorem alist_get_update_ne {α : Type} (l : List (Nat × α)) (k k2 : Nat) (f : α → α)
    (h : k ≠ k2) :
    alist_get (alist_update l k f) k2 = alist_get l k2 := by
  induction l with
  | nil => simp [alist_get, alist_update]
  | cons hd tl ih =>
    obtain ⟨k3, w⟩ := hd
    by_cases h3 : k3 = k
    · subst h3
      simp [alist_update, alist_get, h]
    · simp [alist_update, alist_get, h3, ih]

theorem alist_get_insert_eq {α : Type} (l : List (Nat × α)) (k : Nat) (v : α) :
    alist_get (alist_insert l k v) k = some v := by
  induction l with
  | nil => simp [alist_get, alist_insert]
  | cons hd tl ih =>
    obtain ⟨k2, w⟩ := hd
    by_cases h : k2 = k
    · subst h
      simp [alist_insert, alist_get]
    · simp [alist_insert, alist_get, h, ih]

theorem alist_get_insert_ne {α : Type} (l : List (Nat × α)) (k k2 : Nat) (v : α)
    (h : k ≠ k2) :
    alist_get (alist_insert l k v) k2 = alist_get l k2 := by
  induction l with
  | nil => simp [alist_get, alist_insert, h]
  | cons hd tl ih =>
    obtain ⟨k3, w⟩ := hd
    by_cases h3 : k3 = k
    · subst h3
      simp [alist_insert, alist_get, h]
    · simp [alist_insert, alist_get, h3, ih]

theorem alist_get_remove_ne {α : Type} (l : List (Nat × α)) (k k2 : Nat)
    (h : k ≠ k2) :
    alist_get (alist_remove l k) k2 = alist_get l k2 := by
  induction l with
  | nil => simp [alist_remove]
  | cons hd tl ih =>
    obtain ⟨k3, w⟩ := hd
    by_cases h3 : k3 = k
    · subst h3
      simp [alist_remove, alist_get, h]
    · simp [alist_remove, alist_get, h3, ih]

/-! ## Concrete fixtures used by witnesses -/

/-- A default property bag. -/
def props0 : WindowProps :=
  { imm_context := 0
    visible_ime_candidate_window := true
    auto_close := true
    cursor := 0
    parent := none
    nc_hittest := false
    redrawing := false
    resizing := false
    minimized := false
    menu := none
    theme_menu := 0
    color_mode := ColorMode.System
    color_mode_state := ColorModeState.Light }

/-- A default dispatch environment: zero geometry, no IME data, both
round-trip reply senders dropped without a send. -/
def env0 : Env :=
  { update_rect := ⟨0, 0, 0, 0⟩
    cursor_pos := ⟨0, 0⟩
    client_origin := ⟨0, 0⟩
    window_rect := ⟨0, 0, 0, 0⟩
    client_rect := ⟨0, 0, 0, 0⟩
    dpi := 96
    sizing_rect := ⟨0, 0, 0, 0⟩
    windowpos_x := 0
    windowpos_y := 0
    windowpos_flags := 0
    dpi_changed_rect := ⟨0, 0, 0, 0⟩
    adjusted_rect := ⟨0, 0, 0, 0⟩
    drop_paths := []
    drop_position := ⟨0, 0⟩
    ime_comp_string := none
    ime_comp_clauses := none
    ime_cursor_position := 0
    ime_result := none
    ime_reply := none
    hittest_reply := none
    system_dark_mode := false
    setting_change_param := "" }

/-! ## C4 -/

/-- Claim C4: for every handle not present in the registry, every
registry lookup is absent and non-fatal: send_event performs no channel
send and returns the state unchanged, and get_window_props returns None
without invoking its callback; no operation fabricates a default record
for an untracked handle. -/
theorem send_event_get_props_untracked (c : Ctx) (handle : WindowHandle) (event : Event)
    (habs : alist_get c.window_map handle = none) :
    Context.send_event handle event c = c ∧
    (∀ (α : Type) (f : WindowProps → α), Context.get_window_props handle f c = none) ∧
    (Context.send_event handle event c).window_map = c.window_map := by
  refine ⟨?_, ?_, ?_⟩
  · simp [Context.send_event, habs]
  · intro α f
    simp [Context.get_window_props, habs]
  · simp [Context.send_event, habs]

theorem send_event_get_props_untracked_witness :
    Context.send_event 7 Event.Closed ContextImpl.new = ContextImpl.new ∧
    (∀ (α : Type) (f : WindowProps → α), Context.get_window_props 7 f ContextImpl.new = none) ∧
    (Context.send_event 7 Event.Closed ContextImpl.new).window_map = ContextImpl.new.window_map :=
  send_event_get_props_untracked ContextImpl.new 7 Event.Closed (by decide)

/-! ## C10 -/

/-- Claim C10: for every handle not present in the registry,
Context::set_window_props panics (it unwraps the failed lookup) instead
of being a silent no-op, unlike get_window_props which returns None for
the same handle; consequently a posted property-mutating task such as a
cursor change that runs after the window's destroy notification has
been processed faults the UI thread (the loop breaks with code 1 and
the fault enters the panic path) rather than being ignored. -/
theorem set_window_props_untracked_panics (st : St) (handle : WindowHandle)
    (f : WindowProps → WindowProps) (g : WindowProps → Nat) (cursor : Nat)
    (habs : alist_get st.ctx.window_map handle = none) :
    Context.set_window_props handle f st.ctx = .error PanicPayload.unwrap_none ∧
    Context.get_window_props handle g st.ctx = none ∧
    ui_loop_step (LoopEvent.taskWake [methods.set_cursor_task handle cursor]) st =
      LoopStep.exit 1 { st with ctx := Context.send_panic PanicPayload.unwrap_none st.ctx } := by
  refine ⟨?_, ?_, ?_⟩
  · simp [Context.set_window_props, habs]
  · simp [Context.get_window_props, habs]
  · simp [ui_loop_step, run_tasks, methods.set_cursor_task, Context.set_window_props, habs]

theorem set_window_props_untracked_panics_witness :
    Context.set_window_props 3 id ContextImpl.new = .error PanicPayload.unwrap_none ∧
    Context.get_window_props 3 (fun p => p.cursor) ContextImpl.new = none ∧
    ui_loop_step (LoopEvent.taskWake [methods.set_cursor_task 3 1])
        ⟨ContextImpl.new, none, [], false⟩ =
      LoopStep.exit 1 { (⟨ContextImpl.new, none, [], false⟩ : St) with
        ctx := Context.send_panic PanicPayload.unwrap_none ContextImpl.new } :=
  set_window_props_untracked_panics ⟨ContextImpl.new, none, [], false⟩ 3 id
    (fun p => p.cursor) 1 (by decide)

/-! ## C6 -/

/-- Claim C6 counterexample: the round trip is not exact for every
logical value and every DPI. At DPI 144 truncation loses logical 1
(physical 1 * 144 / 96 = 1, back 1 * 96 / 144 = 0); and even at DPI
192, an exact multiple of 96, the u32 multiplication of logical 2^26
wraps (2^26 * 192 = 3 * 2^32 ≡ 0), so the round trip returns 0. -/
theorem logical_roundtrip_counterexample :
    (LogicalSize.to_physical ⟨1, 1⟩ 144).to_logical 144 ≠ (⟨1, 1⟩ : LogicalSize Nat) ∧
    (LogicalSize.to_physical ⟨67108864, 67108864⟩ 192).to_logical 192 ≠
      (⟨67108864, 67108864⟩ : LogicalSize Nat) := by
  decide

/-- Claim C6 (amended): for every logical position or size value and
every DPI value that is a positive exact multiple of 96, provided each
coordinate times the DPI stays below 2^32 so the u32 multiplication
does not wrap, converting logical to physical (a * dpi / 96) and back
to logical (a * 96 / dpi) returns the original value exactly; in
particular 128 logical at DPI 192 converts to 256 physical and back to
128 logical. -/
theorem logical_roundtrip_at_dpi_multiples (a k : Nat) (s : LogicalSize Nat)
    (p : LogicalPosition Nat) (hk : 0 < k)
    (ha : a * (DEFAULT_DPI * k) < 4294967296)
    (hsw : s.width * (DEFAULT_DPI * k) < 4294967296)
    (hsh : s.height * (DEFAULT_DPI * k) < 4294967296)
    (hpx : p.x * (DEFAULT_DPI * k) < 4294967296)
    (hpy : p.y * (DEFAULT_DPI * k) < 4294967296) :
    to_logical_value (to_physical_value a (DEFAULT_DPI * k)) (DEFAULT_DPI * k) = a ∧
    (s.to_physical (DEFAULT_DPI * k)).to_logical (DEFAULT_DPI * k) = s ∧
    (p.to_physical (DEFAULT_DPI * k)).to_logical (DEFAULT_DPI * k) = p ∧
    to_physical_value 128 192 = 256 ∧ to_logical_value 256 192 = 128 := by
  have core : ∀ b : Nat, b * (DEFAULT_DPI * k) < 4294967296 →
      to_logical_value (to_physical_value b (DEFAULT_DPI * k)) (DEFAULT_DPI * k) = b := by
    intro b hb
    unfold DEFAULT_DPI at hb
    have h1 : to_physical_value b (DEFAULT_DPI * k) = b * k := by
      unfold to_physical_value DEFAULT_DPI
      rw [Nat.mod_eq_of_lt hb, Nat.mul_comm 96 k, ← Nat.mul_assoc]
      exact Nat.mul_div_cancel _ (by omega)
    have h2 : to_logical_value (b * k) (DEFAULT_DPI * k) = b := by
      unfold to_logical_value DEFAULT_DPI
      have hassoc : b * k * 96 = b * (96 * k) := by ring
      rw [hassoc, Nat.mod_eq_of_lt hb]
      exact Nat.mul_div_cancel _ (by positivity)
    rw [h1, h2]
  refine ⟨core a ha, ?_, ?_, by decide, by decide⟩
  · obtain ⟨w, h⟩ := s
    simp only [LogicalSize.to_physical, PhysicalSize.to_logical]
    rw [core w hsw, core h hsh]
  · obtain ⟨x, y⟩ := p
    simp only [LogicalPosition.to_physical, PhysicalPosition.to_logical]
    rw [core x hpx, core y hpy]

/-! ## C7 -/

/-- Claim C7: for every window P removed from the registry,
remove_window posts a close request (WM_CLOSE, the message methods
close posts) to every handle in P's children list, the list to which
register_window appended each window created with parent P; the cascade
posts close requests, leaving the children's own records in place to
honour their close policies, rather than destroying them synchronously. -/
theorem remove_window_cascades_close (c : Ctx) (h : WindowHandle) (obj : Object)
    (cb : Ctx) (kind : WindowKind) (props : WindowProps) (rx : Nat)
    (P : WindowHandle) (pobj : Object) (c2 : Ctx)
    (hobj : alist_get c.window_map h = some obj)
    (hparent : props.parent = some P)
    (hne : P ≠ kind.window_handle)
    (hpobj : alist_get cb.window_map P = some pobj)
    (hreg : Context.register_window kind props rx cb = .ok c2) :
    (Context.remove_window h c).2.2 = obj.children.map methods.close ∧
    (Context.remove_window h c).2.1.window_map = alist_remove c.window_map h ∧
    (∀ child, child ≠ h →
      alist_get (Context.remove_window h c).2.1.window_map child =
        alist_get c.window_map child) ∧
    alist_get c2.window_map P =
      some { pobj with children := pobj.children ++ [kind.window_handle] } := by
  refine ⟨?_, ?_, ?_, ?_⟩
  · simp [Context.remove_window, hobj, methods.close]
  · simp [Context.remove_window, hobj]
  · intro child hchild
    simp only [Context.remove_window, hobj]
    exact alist_get_remove_ne _ _ _ (fun hh => hchild hh.symm)
  · unfold Context.register_window at hreg
    by_cases he : cb.event_txs.isEmpty <;>
      simp only [he, if_true, if_false, Bool.false_eq_true, ite_true, ite_false] at hreg <;>
    · cases htx : alist_get cb.event_txs rx with
      | none => simp [htx] at hreg
      | some tx =>
        simp only [htx, hparent] at hreg
        cases hreg
        rw [alist_get_update_eq, alist_get_insert_ne _ _ _ _ (fun hh => hne hh.symm), hpobj]
        rfl

theorem remove_window_cascades_close_witness :
    (Context.remove_window 1
      { window_map := [(1, ⟨WindowKind.Window 1, 0, props0, [2, 3]⟩)]
        event_txs := [(0, 0)]
        panic_receiver := 0
        queues := [(0, [])]
        trace := [] }).2.2 = [2, 3].map methods.close ∧
    (Context.remove_window 1
      { window_map := [(1, ⟨WindowKind.Window 1, 0, props0, [2, 3]⟩)]
        event_txs := [(0, 0)]
        panic_receiver := 0
        queues := [(0, [])]
        trace := [] }).2.1.window_map =
      alist_remove [(1, ⟨WindowKind.Window 1, 0, props0, [2, 3]⟩)] 1 ∧
    (∀ child, child ≠ 1 →
      alist_get (Context.remove_window 1
        { window_map := [(1, ⟨WindowKind.Window 1, 0, props0, [2, 3]⟩)]
          event_txs := [(0, 0)]
          panic_receiver := 0
          queues := [(0, [])]
          trace := [] }).2.1.window_map child =
        alist_get [(1, ⟨WindowKind.Window 1, 0, props0, [2, 3]⟩)] child) ∧
    alist_get
      { window_map :=
          [(1, ⟨WindowKind.Window 1, 0, props0, [2, 3, 9]⟩),
           (9, ⟨WindowKind.Window 9, 0, { props0 with parent := some 1 }, []⟩)]
        event_txs := [(0, 0)]
        panic_receiver := 0
        queues := [(0, [])]
        trace := [] : Ctx }.window_map 1 =
      some { (⟨WindowKind.Window 1, 0, props0, [2, 3]⟩ : Object) with
               children := [2, 3] ++ [9] } :=
  remove_window_cascades_close
    { window_map := [(1, ⟨WindowKind.Window 1, 0, props0, [2, 3]⟩)]
      event_txs := [(0, 0)]
      panic_receiver := 0
      queues := [(0, [])]
      trace := [] }
    1 ⟨WindowKind.Window 1, 0, props0, [2, 3]⟩
    { window_map := [(1, ⟨WindowKind.Window 1, 0, props0, [2, 3]⟩)]
      event_txs := [(0, 0)]
      panic_receiver := 0
      queues := [(0, [])]
      trace := [] }
    (WindowKind.Window 9) { props0 with parent := some 1 } 0 1
    ⟨WindowKind.Window 1, 0, props0, [2, 3]⟩
    { window_map :=
        [(1, ⟨WindowKind.Window 1, 0, props0, [2, 3, 9]⟩),
         (9, ⟨WindowKind.Window 9, 0, { props0 with parent := some 1 }, []⟩)]
      event_txs := [(0, 0)]
      panic_receiver := 0
      queues := [(0, [])]
      trace := [] }
    (by decide) (by decide) (by decide) (by decide) (by rfl)

/-! ## C9 -/

/-- Claim C9: if the application never designates a panic receiver, the
receiver that gets a resumed panic is the first one registered in the
process: the panic-receiver id starts at 0, the monotonic process-wide
receiver counter hands out 0 to the first EventReceiver created, and
send_panic forwards the fault to that receiver's channel. -/
theorem default_panic_receiver_is_first (p : PanicPayload) :
    ContextImpl.new.panic_receiver = 0 ∧
    (gen_id ID0).1 = 0 ∧
    (∀ n, gen_id n = (n, n + 1)) ∧
    (EventReceiver.new ID0 ContextImpl.new).1.id = ContextImpl.new.panic_receiver ∧
    alist_get
      (Context.send_panic p (EventReceiver.new ID0 ContextImpl.new).2.2).queues
      (EventReceiver.new ID0 ContextImpl.new).1.id =
      some [RecvEventOrPanic.panic p] := by
  refine ⟨rfl, rfl, fun n => rfl, rfl, ?_⟩
  simp [EventReceiver.new, gen_id, ID0, ContextImpl.new, Context.register_event_tx,
    Context.send_panic, Context.close_all_windows, alist_insert, alist_get, alist_update]

/-! ## C8 -/

/-- The arms preceding the application-event range arm all test message
constants below the application range, so any message in
OFFSET_WM_APP..0xbfff reaches on_app. -/
theorem window_proc_body_app (hwnd : WindowHandle) (msg wparam : Nat) (lparam : Int)
    (env : Env) (st : St) (h1 : OFFSET_WM_APP ≤ msg) (h2 : msg < 0xbfff) :
    window_proc_body hwnd msg wparam lparam env st = on_app hwnd msg wparam lparam st := by
  have hge : 32770 ≤ msg := by simpa [OFFSET_WM_APP, WM_APP] using h1
  have e1 : ¬msg = WM_PAINT := by simp only [WM_PAINT]; omega
  have e2 : ¬msg = WM_NCPAINT := by simp only [WM_NCPAINT]; omega
  have e3 : ¬msg = WM_UAHDRAWMENU := by simp only [WM_UAHDRAWMENU]; omega
  have e4 : ¬msg = WM_UAHDRAWMENUITEM := by simp only [WM_UAHDRAWMENUITEM]; omega
  have e5 : ¬msg = WM_MOUSEMOVE := by simp only [WM_MOUSEMOVE]; omega
  have e6 : ¬msg = WM_SETCURSOR := by simp only [WM_SETCURSOR]; omega
  have e7 : ¬msg = WM_MOUSELEAVE := by simp only [WM_MOUSELEAVE]; omega
  have e8 : ¬msg = WM_LBUTTONDOWN := by simp only [WM_LBUTTONDOWN]; omega
  have e9 : ¬msg = WM_RBUTTONDOWN := by simp only [WM_RBUTTONDOWN]; omega
  have e10 : ¬msg = WM_MBUTTONDOWN := by simp only [WM_MBUTTONDOWN]; omega
  have e11 : ¬msg = WM_XBUTTONDOWN := by simp only [WM_XBUTTONDOWN]; omega
  have e12 : ¬msg = WM_LBUTTONUP := by simp only [WM_LBUTTONUP]; omega
  have e13 : ¬msg = WM_RBUTTONUP := by simp only [WM_RBUTTONUP]; omega
  have e14 : ¬msg = WM_MBUTTONUP := by simp only [WM_MBUTTONUP]; omega
  have e15 : ¬msg = WM_XBUTTONUP := by simp only [WM_XBUTTONUP]; omega
  have e16 : ¬msg = WM_MOUSEWHEEL := by simp only [WM_MOUSEWHEEL]; omega
  have e17 : ¬msg = WM_MOUSEHWHEEL := by simp only [WM_MOUSEHWHEEL]; omega
  have hrange : OFFSET_WM_APP ≤ msg ∧ msg < 0xbfff := ⟨h1, h2⟩
  unfold window_proc_body
  rw [if_neg e1, if_neg e2, if_neg e3, if_neg e4, if_neg e5, if_neg e6, if_neg e7,
    if_neg e8, if_neg e9, if_neg e10, if_neg e11, if_neg e12, if_neg e13, if_neg e14,
    if_neg e15, if_neg e16, if_neg e17, if_pos hrange]

/-- Claim C8: posting an application-defined event with fields (index,
value0, value1) encodes it as native message OFFSET_WM_APP + index with
parameters value0 and value1, and the dispatch procedure decodes any
message in the application range back into an App event with exactly
those three field values; in particular the posted message is delivered
on the window's bound channel as App (index, value0, value1). -/
theorem post_app_event_roundtrip (handle : WindowHandle) (index value0 : Nat)
    (value1 : Int) (env : Env) (st : St) (obj : Object) (q : List RecvEventOrPanic)
    (hidx : OFFSET_WM_APP + index < 0xbfff)
    (hobj : alist_get st.ctx.window_map handle = some obj)
    (hq : alist_get st.ctx.queues obj.event_tx = some q) :
    methods.post_app_event handle index value0 value1 =
      (handle, OFFSET_WM_APP + index, value0, value1) ∧
    (window_proc handle (OFFSET_WM_APP + index) value0 value1 env st).unwind = none ∧
    (window_proc handle (OFFSET_WM_APP + index) value0 value1 env st).st.ctx.trace =
      st.ctx.trace ++ [(handle, Event.App index value0 value1)] ∧
    alist_get (window_proc handle (OFFSET_WM_APP + index) value0 value1 env st).st.ctx.queues
        obj.event_tx =
      some (q ++ [RecvEventOrPanic.event (Event.App index value0 value1, obj.kind)]) := by
  have hbody := window_proc_body_app handle (OFFSET_WM_APP + index) value0 value1 env st
    (Nat.le_add_right _ _) hidx
  have hdec : OFFSET_WM_APP + index - OFFSET_WM_APP = index := by omega
  refine ⟨rfl, ?_, ?_, ?_⟩
  · simp [window_proc, hbody, on_app]
  · simp [window_proc, hbody, on_app, hdec, Context.send_event, hobj, Ctx.do_send, PRes.mk0]
  · simp only [window_proc, hbody, on_app, hdec, Context.send_event, hobj, Ctx.do_send, PRes.mk0]
    rw [alist_get_update_eq, hq]
    rfl

theorem post_app_event_roundtrip_witness :
    methods.post_app_event 5 0 1 2 = (5, OFFSET_WM_APP + 0, 1, 2) ∧
    (window_proc 5 (OFFSET_WM_APP + 0) 1 2 env0
      ⟨{ window_map := [(5, ⟨WindowKind.Window 5, 0, props0, []⟩)]
         event_txs := [(0, 0)]
         panic_receiver := 0
         queues := [(0, [])]
         trace := [] }, none, [], false⟩).unwind = none ∧
    (window_proc 5 (OFFSET_WM_APP + 0) 1 2 env0
      ⟨{ window_map := [(5, ⟨WindowKind.Window 5, 0, props0, []⟩)]
         event_txs := [(0, 0)]
         panic_receiver := 0
         queues := [(0, [])]
         trace := [] }, none, [], false⟩).st.ctx.trace =
      [] ++ [(5, Event.App 0 1 2)] ∧
    alist_get (window_proc 5 (OFFSET_WM_APP + 0) 1 2 env0
      ⟨{ window_map := [(5, ⟨WindowKind.Window 5, 0, props0, []⟩)]
         event_txs := [(0, 0)]
         panic_receiver := 0
         queues := [(0, [])]
         trace := [] }, none, [], false⟩).st.ctx.queues 0 =
      some ([] ++ [RecvEventOrPanic.event (Event.App 0 1 2, WindowKind.Window 5)]) :=
  post_app_event_roundtrip 5 0 1 2 env0
    ⟨{ window_map := [(5, ⟨WindowKind.Window 5, 0, props0, []⟩)]
       event_txs := [(0, 0)]
       panic_receiver := 0
       queues := [(0, [])]
       trace := [] }, none, [], false⟩
    ⟨WindowKind.Window 5, 0, props0, []⟩ []
    (by decide) (by decide) (by decide)

/-! ## Reduction of the dispatch match at fixed message identities -/

theorem window_proc_body_at_nc_hittest (hwnd wparam : Nat) (lparam : Int)
    (env : Env) (st : St) :
    window_proc_body hwnd WM_NCHITTEST wparam lparam env st =
      on_nc_hittest hwnd wparam lparam env st := by
  unfold window_proc_body
  simp [WM_PAINT, WM_NCPAINT, WM_UAHDRAWMENU, WM_UAHDRAWMENUITEM, WM_MOUSEMOVE,
    WM_SETCURSOR, WM_MOUSELEAVE, WM_LBUTTONDOWN, WM_RBUTTONDOWN, WM_MBUTTONDOWN,
    WM_XBUTTONDOWN, WM_LBUTTONUP, WM_RBUTTONUP, WM_MBUTTONUP, WM_XBUTTONUP,
    WM_MOUSEWHEEL, WM_MOUSEHWHEEL, OFFSET_WM_APP, WM_APP, WM_KEYDOWN, WM_KEYUP,
    WM_CHAR, WM_APP_NOTIFY_ICON, WM_IME_SETCONTEXT, WM_IME_STARTCOMPOSITION,
    WM_IME_COMPOSITION, WM_IME_ENDCOMPOSITION, WM_SIZING, WM_SIZE,
    WM_WINDOWPOSCHANGED, WM_ENTERSIZEMOVE, WM_EXITSIZEMOVE, WM_ACTIVATE,
    WM_NCACTIVATE, WM_DPICHANGED, WM_GETDPISCALEDSIZE, WM_DROPFILES, WM_NCCREATE,
    WM_NCHITTEST, WM_MENUCOMMAND, WM_CONTEXTMENU, WM_SETTINGCHANGE, WM_CLOSE,
    WM_DESTROY]

theorem window_proc_body_at_ime_start (hwnd wparam : Nat) (lparam : Int)
    (env : Env) (st : St) :
    window_proc_body hwnd WM_IME_STARTCOMPOSITION wparam lparam env st =
      on_ime_start_composition hwnd wparam lparam env st := by
  unfold window_proc_body
  simp [WM_PAINT, WM_NCPAINT, WM_UAHDRAWMENU, WM_UAHDRAWMENUITEM, WM_MOUSEMOVE,
    WM_SETCURSOR, WM_MOUSELEAVE, WM_LBUTTONDOWN, WM_RBUTTONDOWN, WM_MBUTTONDOWN,
    WM_XBUTTONDOWN, WM_LBUTTONUP, WM_RBUTTONUP, WM_MBUTTONUP, WM_XBUTTONUP,
    WM_MOUSEWHEEL, WM_MOUSEHWHEEL, OFFSET_WM_APP, WM_APP, WM_KEYDOWN, WM_KEYUP,
    WM_CHAR, WM_APP_NOTIFY_ICON, WM_IME_SETCONTEXT, WM_IME_STARTCOMPOSITION,
    WM_IME_COMPOSITION, WM_IME_ENDCOMPOSITION, WM_SIZING, WM_SIZE,
    WM_WINDOWPOSCHANGED, WM_ENTERSIZEMOVE, WM_EXITSIZEMOVE, WM_ACTIVATE,
    WM_NCACTIVATE, WM_DPICHANGED, WM_GETDPISCALEDSIZE, WM_DROPFILES, WM_NCCREATE,
    WM_NCHITTEST, WM_MENUCOMMAND, WM_CONTEXTMENU, WM_SETTINGCHANGE, WM_CLOSE,
    WM_DESTROY]

theorem window_proc_body_at_size (hwnd wparam : Nat) (lparam : Int)
    (env : Env) (st : St) :
    window_proc_body hwnd WM_SIZE wparam lparam env st =
      on_size hwnd wparam lparam st := by
  unfold window_proc_body
  simp [WM_PAINT, WM_NCPAINT, WM_UAHDRAWMENU, WM_UAHDRAWMENUITEM, WM_MOUSEMOVE,
    WM_SETCURSOR, WM_MOUSELEAVE, WM_LBUTTONDOWN, WM_RBUTTONDOWN, WM_MBUTTONDOWN,
    WM_XBUTTONDOWN, WM_LBUTTONUP, WM_RBUTTONUP, WM_MBUTTONUP, WM_XBUTTONUP,
    WM_MOUSEWHEEL, WM_MOUSEHWHEEL, OFFSET_WM_APP, WM_APP, WM_KEYDOWN, WM_KEYUP,
    WM_CHAR, WM_APP_NOTIFY_ICON, WM_IME_SETCONTEXT, WM_IME_STARTCOMPOSITION,
    WM_IME_COMPOSITION, WM_IME_ENDCOMPOSITION, WM_SIZING, WM_SIZE,
    WM_WINDOWPOSCHANGED, WM_ENTERSIZEMOVE, WM_EXITSIZEMOVE, WM_ACTIVATE,
    WM_NCACTIVATE, WM_DPICHANGED, WM_GETDPISCALEDSIZE, WM_DROPFILES, WM_NCCREATE,
    WM_NCHITTEST, WM_MENUCOMMAND, WM_CONTEXTMENU, WM_SETTINGCHANGE, WM_CLOSE,
    WM_DESTROY]

theorem window_proc_body_at_enter_size_move (hwnd wparam : Nat) (lparam : Int)
    (env : Env) (st : St) :
    window_proc_body hwnd WM_ENTERSIZEMOVE wparam lparam env st =
      on_enter_size_move hwnd wparam lparam st := by
  unfold window_proc_body
  simp [WM_PAINT, WM_NCPAINT, WM_UAHDRAWMENU, WM_UAHDRAWMENUITEM, WM_MOUSEMOVE,
    WM_SETCURSOR, WM_MOUSELEAVE, WM_LBUTTONDOWN, WM_RBUTTONDOWN, WM_MBUTTONDOWN,
    WM_XBUTTONDOWN, WM_LBUTTONUP, WM_RBUTTONUP, WM_MBUTTONUP, WM_XBUTTONUP,
    WM_MOUSEWHEEL, WM_MOUSEHWHEEL, OFFSET_WM_APP, WM_APP, WM_KEYDOWN, WM_KEYUP,
    WM_CHAR, WM_APP_NOTIFY_ICON, WM_IME_SETCONTEXT, WM_IME_STARTCOMPOSITION,
    WM_IME_COMPOSITION, WM_IME_ENDCOMPOSITION, WM_SIZING, WM_SIZE,
    WM_WINDOWPOSCHANGED, WM_ENTERSIZEMOVE, WM_EXITSIZEMOVE, WM_ACTIVATE,
    WM_NCACTIVATE, WM_DPICHANGED, WM_GETDPISCALEDSIZE, WM_DROPFILES, WM_NCCREATE,
    WM_NCHITTEST, WM_MENUCOMMAND, WM_CONTEXTMENU, WM_SETTINGCHANGE, WM_CLOSE,
    WM_DESTROY]

theorem window_proc_body_at_exit_size_move (hwnd wparam : Nat) (lparam : Int)
    (env : Env) (st : St) :
    window_proc_body hwnd WM_EXITSIZEMOVE wparam lparam env st =
      on_exit_size_move hwnd wparam lparam env st := by
  unfold window_proc_body
  simp [WM_PAINT, WM_NCPAINT, WM_UAHDRAWMENU, WM_UAHDRAWMENUITEM, WM_MOUSEMOVE,
    WM_SETCURSOR, WM_MOUSELEAVE, WM_LBUTTONDOWN, WM_RBUTTONDOWN, WM_MBUTTONDOWN,
    WM_XBUTTONDOWN, WM_LBUTTONUP, WM_RBUTTONUP, WM_MBUTTONUP, WM_XBUTTONUP,
    WM_MOUSEWHEEL, WM_MOUSEHWHEEL, OFFSET_WM_APP, WM_APP, WM_KEYDOWN, WM_KEYUP,
    WM_CHAR, WM_APP_NOTIFY_ICON, WM_IME_SETCONTEXT, WM_IME_STARTCOMPOSITION,
    WM_IME_COMPOSITION, WM_IME_ENDCOMPOSITION, WM_SIZING, WM_SIZE,
    WM_WINDOWPOSCHANGED, WM_ENTERSIZEMOVE, WM_EXITSIZEMOVE, WM_ACTIVATE,
    WM_NCACTIVATE, WM_DPICHANGED, WM_GETDPISCALEDSIZE, WM_DROPFILES, WM_NCCREATE,
    WM_NCHITTEST, WM_MENUCOMMAND, WM_CONTEXTMENU, WM_SETTINGCHANGE, WM_CLOSE,
    WM_DESTROY]

theorem window_proc_body_at_destroy (hwnd wparam : Nat) (lparam : Int)
    (env : Env) (st : St) :
    window_proc_body hwnd WM_DESTROY wparam lparam env st = on_destroy hwnd st := by
  unfold window_proc_body
  simp [WM_PAINT, WM_NCPAINT, WM_UAHDRAWMENU, WM_UAHDRAWMENUITEM, WM_MOUSEMOVE,
    WM_SETCURSOR, WM_MOUSELEAVE, WM_LBUTTONDOWN, WM_RBUTTONDOWN, WM_MBUTTONDOWN,
    WM_XBUTTONDOWN, WM_LBUTTONUP, WM_RBUTTONUP, WM_MBUTTONUP, WM_XBUTTONUP,
    WM_MOUSEWHEEL, WM_MOUSEHWHEEL, OFFSET_WM_APP, WM_APP, WM_KEYDOWN, WM_KEYUP,
    WM_CHAR, WM_APP_NOTIFY_ICON, WM_IME_SETCONTEXT, WM_IME_STARTCOMPOSITION,
    WM_IME_COMPOSITION, WM_IME_ENDCOMPOSITION, WM_SIZING, WM_SIZE,
    WM_WINDOWPOSCHANGED, WM_ENTERSIZEMOVE, WM_EXITSIZEMOVE, WM_ACTIVATE,
    WM_NCACTIVATE, WM_DPICHANGED, WM_GETDPISCALEDSIZE, WM_DROPFILES, WM_NCCREATE,
    WM_NCHITTEST, WM_MENUCOMMAND, WM_CONTEXTMENU, WM_SETTINGCHANGE, WM_CLOSE,
    WM_DESTROY]

/-! ## C3 -/

/-- Claim C3: for every round-trip event dispatched with a fresh
one-shot reply channel (non-client hit test with hooking enabled, and
IME begin-composition), if the reply sender is dropped or closed
without a value being sent, the blocked dispatch invocation still
returns without a fault, computing its native result from the default
behavior: the hit test delegates to the platform default handler, and
the begin-composition path skips the candidate-window positioning and
delegates. -/
theorem roundtrip_reply_dropped_falls_back (hwnd wparam : Nat) (lparam : Int)
    (env : Env) (st : St)
    (hhook : Context.get_window_props hwnd (fun p => p.nc_hittest) st.ctx = some true)
    (hrep : ∀ v, env.hittest_reply ≠ some (some v))
    (hime : env.ime_reply = none) :
    (window_proc hwnd WM_NCHITTEST wparam lparam env st).result =
      LResult.defWindowProc WM_NCHITTEST wparam lparam ∧
    (window_proc hwnd WM_NCHITTEST wparam lparam env st).unwind = none ∧
    (window_proc hwnd WM_IME_STARTCOMPOSITION wparam lparam env st).result =
      LResult.defWindowProc WM_IME_STARTCOMPOSITION wparam lparam ∧
    (window_proc hwnd WM_IME_STARTCOMPOSITION wparam lparam env st).unwind = none ∧
    (window_proc hwnd WM_IME_STARTCOMPOSITION wparam lparam env st).native = [] := by
  have hnc : ∀ (r : CaughtResult),
      r = window_proc hwnd WM_NCHITTEST wparam lparam env st →
      r.result = LResult.defWindowProc WM_NCHITTEST wparam lparam ∧ r.unwind = none := by
    intro r hr
    rw [window_proc, window_proc_body_at_nc_hittest] at hr
    unfold on_nc_hittest at hr
    rw [hhook] at hr
    cases hrx : env.hittest_reply with
    | none => simp [hrx, PRes.mk0] at hr; simp [hr]
    | some o =>
      cases o with
      | none => simp [hrx, PRes.mk0] at hr; simp [hr]
      | some v => exact absurd hrx (hrep v)
  have hstart := window_proc_body_at_ime_start hwnd wparam lparam env st
  refine ⟨(hnc _ rfl).1, (hnc _ rfl).2, ?_, ?_, ?_⟩ <;>
  · rw [window_proc, hstart]
    unfold on_ime_start_composition
    simp [hime]

theorem roundtrip_reply_dropped_falls_back_witness :
    (window_proc 5 WM_NCHITTEST 0 0 env0
      ⟨{ window_map := [(5, ⟨WindowKind.Window 5, 0, { props0 with nc_hittest := true }, []⟩)]
         event_txs := [(0, 0)]
         panic_receiver := 0
         queues := [(0, [])]
         trace := [] }, none, [], false⟩).result = LResult.defWindowProc WM_NCHITTEST 0 0 ∧
    (window_proc 5 WM_NCHITTEST 0 0 env0
      ⟨{ window_map := [(5, ⟨WindowKind.Window 5, 0, { props0 with nc_hittest := true }, []⟩)]
         event_txs := [(0, 0)]
         panic_receiver := 0
         queues := [(0, [])]
         trace := [] }, none, [], false⟩).unwind = none ∧
    (window_proc 5 WM_IME_STARTCOMPOSITION 0 0 env0
      ⟨{ window_map := [(5, ⟨WindowKind.Window 5, 0, { props0 with nc_hittest := true }, []⟩)]
         event_txs := [(0, 0)]
         panic_receiver := 0
         queues := [(0, [])]
         trace := [] }, none, [], false⟩).result =
      LResult.defWindowProc WM_IME_STARTCOMPOSITION 0 0 ∧
    (window_proc 5 WM_IME_STARTCOMPOSITION 0 0 env0
      ⟨{ window_map := [(5, ⟨WindowKind.Window 5, 0, { props0 with nc_hittest := true }, []⟩)]
         event_txs := [(0, 0)]
         panic_receiver := 0
         queues := [(0, [])]
         trace := [] }, none, [], false⟩).unwind = none ∧
    (window_proc 5 WM_IME_STARTCOMPOSITION 0 0 env0
      ⟨{ window_map := [(5, ⟨WindowKind.Window 5, 0, { props0 with nc_hittest := true }, []⟩)]
         event_txs := [(0, 0)]
         panic_receiver := 0
         queues := [(0, [])]
         trace := [] }, none, [], false⟩).native = [] :=
  roundtrip_reply_dropped_falls_back 5 0 0 env0
    ⟨{ window_map := [(5, ⟨WindowKind.Window 5, 0, { props0 with nc_hittest := true }, []⟩)]
       event_txs := [(0, 0)]
       panic_receiver := 0
       queues := [(0, [])]
       trace := [] }, none, [], false⟩
    (by rfl) (fun v => by simp [env0]) (by rfl)

/-! ## C5 -/

theorem except_bind_ok_pr {α β : Type} (a : α) (f : α → Except PanicPayload β) :
    (Except.ok a : Except PanicPayload α) >>= f = f a := rfl

theorem except_bind_error_pr {α β : Type} (e : PanicPayload) (f : α → Except PanicPayload β) :
    (Except.error e : Except PanicPayload α) >>= f = Except.error e := rfl

theorem set_window_props_ok (handle : WindowHandle) (f : WindowProps → WindowProps)
    (c c2 : Ctx) (h : Context.set_window_props handle f c = Except.ok c2) :
    c2 = { c with window_map := alist_update c.window_map handle (fun obj => { obj with props := f obj.props }) } := by
  unfold Context.set_window_props at h
  cases hx : alist_get c.window_map handle <;> rw [hx] at h
  · exact absurd h (by simp)
  · simp only [Except.ok.injEq] at h
    exact h.symm

/-- Claim C5: in every per-window state of the dispatch step relation,
a size notification with the restored code never emits a Restored event
unless the window's minimized flag is set, and never emits a Resized
event while the window's resizing flag is set; the minimized flag is
set by the minimize size notification and the resizing flag is set by
enter-size-move and cleared by exit-size-move, so duplicate resize
notifications during a modal resize-drag are suppressed and Restored is
suppressed for a window that was never minimized. -/
theorem restored_resized_suppression (hwnd wparam : Nat) (lparam : Int)
    (env : Env) (st : St) (hw : wparam % 4294967296 = SIZE_RESTORED) :
    window_proc_body hwnd WM_SIZE wparam lparam env st = on_size hwnd wparam lparam st ∧
    (∀ r, on_size hwnd wparam lparam st = Except.ok r →
      ((∃ size, (hwnd, Event.Restored size) ∈ r.st.ctx.trace.drop st.ctx.trace.length) →
        Context.get_window_props hwnd (fun p => p.minimized) st.ctx = some true) ∧
      (Context.get_window_props hwnd (fun p => p.resizing) st.ctx = some true →
        ∀ size, (hwnd, Event.Resized size) ∉ r.st.ctx.trace.drop st.ctx.trace.length)) ∧
    (∀ (st2 : St) r, on_size hwnd 1 lparam st2 = Except.ok r →
      Context.get_window_props hwnd (fun p => p.minimized) r.st.ctx = some true) ∧
    (∀ (st2 : St) r, on_enter_size_move hwnd wparam lparam st2 = Except.ok r →
      Context.get_window_props hwnd (fun p => p.resizing) r.st.ctx = some true) ∧
    (∀ (st2 : St) r, on_exit_size_move hwnd wparam lparam env st2 = Except.ok r →
      Context.get_window_props hwnd (fun p => p.resizing) r.st.ctx = some false) := by
  refine ⟨window_proc_body_at_size hwnd wparam lparam env st, ?_, ?_, ?_, ?_⟩
  · intro r hr
    unfold on_size at hr
    rw [hw] at hr
    simp only [SIZE_RESTORED, SIZE_MINIMIZED, SIZE_MAXIMIZED] at hr
    norm_num at hr
    cases hobj : alist_get st.ctx.window_map hwnd with
    | none =>
      have hflags : Context.get_window_props hwnd (fun p => (p.resizing, p.minimized)) st.ctx
          = none := by simp [Context.get_window_props, hobj]
      rw [hflags] at hr
      simp only [Option.getD_none] at hr
      norm_num [Context.send_event, hobj] at hr
      cases hr
      constructor
      · intro hex
        simp [PRes.mk0, List.drop_length] at hex
      · intro _ size
        simp [PRes.mk0, List.drop_length]
    | some obj =>
      have hflags : Context.get_window_props hwnd (fun p => (p.resizing, p.minimized)) st.ctx
          = some (obj.props.resizing, obj.props.minimized) := by
        simp [Context.get_window_props, hobj]
      rw [hflags] at hr
      simp only [Option.getD_some] at hr
      by_cases hmin : obj.props.minimized
      · rw [hmin] at hr
        simp only [if_true] at hr
        have hsend : Context.send_event hwnd (Event.Restored (lparam_to_size lparam)) st.ctx =
            (st.ctx.do_send hwnd obj.event_tx (Event.Restored (lparam_to_size lparam)) obj.kind) := by
          simp [Context.send_event, hobj]
        rw [hsend] at hr
        cases hset : Context.set_window_props hwnd (fun p => { p with minimized := false })
            (st.ctx.do_send hwnd obj.event_tx (Event.Restored (lparam_to_size lparam)) obj.kind) with
        | error e =>
          rw [hset] at hr
          simp [except_bind_error_pr] at hr
        | ok c2 =>
          rw [hset] at hr
          simp only [except_bind_ok_pr, Except.ok.injEq] at hr
          have hc2 := set_window_props_ok _ _ _ _ hset
          cases hr
          have htr : c2.trace = st.ctx.trace ++ [(hwnd, Event.Restored (lparam_to_size lparam))] := by
            rw [hc2]
            rfl
          constructor
          · intro _
            simp [Context.get_window_props, hobj, hmin]
          · intro _ size
            simp [PRes.mk0, htr, List.drop_left]
      · rw [if_neg (by simp [hmin])] at hr
        by_cases hres : obj.props.resizing
        · rw [if_neg (by simp [hres])] at hr
          cases hr
          constructor
          · intro hex
            simp [PRes.mk0, List.drop_length] at hex
          · intro _ size
            simp [PRes.mk0, List.drop_length]
        · rw [if_pos (by simp [hres])] at hr
          have hsend : Context.send_event hwnd (Event.Resized (lparam_to_size lparam)) st.ctx =
              (st.ctx.do_send hwnd obj.event_tx (Event.Resized (lparam_to_size lparam)) obj.kind) := by
            simp [Context.send_event, hobj]
          rw [hsend] at hr
          cases hr
          constructor
          · intro hex
            simp [PRes.mk0, Ctx.do_send, List.drop_left] at hex
          · intro hcon size
            rw [Context.get_window_props, hobj] at hcon
            simp only [Option.some.injEq] at hcon
            exact absurd hcon (by simp [hres])
  · intro st2 r hr
    unfold on_size at hr
    norm_num [SIZE_MINIMIZED] at hr
    cases hset : Context.set_window_props hwnd (fun p => { p with minimized := true }) st2.ctx with
    | error e =>
      rw [hset] at hr
      simp [except_bind_error_pr] at hr
    | ok c2 =>
      rw [hset] at hr
      simp only [except_bind_ok_pr, Except.ok.injEq] at hr
      have hc2 := set_window_props_ok _ _ _ _ hset
      have hobj : ∃ obj, alist_get st2.ctx.window_map hwnd = some obj := by
        unfold Context.set_window_props at hset
        cases hx : alist_get st2.ctx.window_map hwnd <;> rw [hx] at hset
        · exact absurd hset (by simp)
        · exact ⟨_, rfl⟩
      obtain ⟨obj, hobj⟩ := hobj
      have hget : alist_get c2.window_map hwnd =
          some { obj with props := { obj.props with minimized := true } } := by
        rw [hc2]
        dsimp only
        rw [alist_get_update_eq, hobj]
        rfl
      cases hr
      simp [PRes.mk0, Context.send_event, hget, Ctx.do_send, Context.get_window_props]
  · intro st2 r hr
    unfold on_enter_size_move at hr
    cases hset : Context.set_window_props hwnd (fun p => { p with resizing := true }) st2.ctx with
    | error e =>
      rw [hset] at hr
      simp [except_bind_error_pr] at hr
    | ok c2 =>
      rw [hset] at hr
      simp only [except_bind_ok_pr, Except.ok.injEq] at hr
      have hc2 := set_window_props_ok _ _ _ _ hset
      have hobj : ∃ obj, alist_get st2.ctx.window_map hwnd = some obj := by
        unfold Context.set_window_props at hset
        cases hx : alist_get st2.ctx.window_map hwnd <;> rw [hx] at hset
        · exact absurd hset (by simp)
        · exact ⟨_, rfl⟩
      obtain ⟨obj, hobj⟩ := hobj
      have hget : alist_get c2.window_map hwnd =
          some { obj with props := { obj.props with resizing := true } } := by
        rw [hc2]
        dsimp only
        rw [alist_get_update_eq, hobj]
        rfl
      cases hr
      simp [PRes.mk0, Context.send_event, hget, Ctx.do_send, Context.get_window_props]
  · intro st2 r hr
    unfold on_exit_size_move at hr
    cases hset : Context.set_window_props hwnd (fun p => { p with resizing := false }) st2.ctx with
    | error e =>
      rw [hset] at hr
      simp [except_bind_error_pr] at hr
    | ok c2 =>
      rw [hset] at hr
      simp only [except_bind_ok_pr, Except.ok.injEq] at hr
      have hc2 := set_window_props_ok _ _ _ _ hset
      have hobj : ∃ obj, alist_get st2.ctx.window_map hwnd = some obj := by
        unfold Context.set_window_props at hset
        cases hx : alist_get st2.ctx.window_map hwnd <;> rw [hx] at hset
        · exact absurd hset (by simp)
        · exact ⟨_, rfl⟩
      obtain ⟨obj, hobj⟩ := hobj
      have hget : alist_get c2.window_map hwnd =
          some { obj with props := { obj.props with resizing := false } } := by
        rw [hc2]
        dsimp only
        rw [alist_get_update_eq, hobj]
        rfl
      cases hr
      simp [PRes.mk0, Context.send_event, hget, Ctx.do_send, Context.get_window_props]

/-! ## C2 -/

/-- Whether a dispatch-body outcome posted the quit signal. -/
def exQuit (x : Except PanicPayload PRes) : Bool :=
  match x with
  | .ok r => r.quit
  | .error _ => false

theorem exQuit_bind {α : Type} (x : Except PanicPayload α)
    (f : α → Except PanicPayload PRes) (h : ∀ a, exQuit (f a) = false) :
    exQuit (x >>= f) = false := by
  cases x
  · rw [except_bind_error_pr]
    rfl
  · rw [except_bind_ok_pr]
    exact h _

theorem exQuit_on_paint (hwnd : WindowHandle) (env : Env) (st : St) :
    exQuit (on_paint hwnd env st) = false := by
  unfold on_paint
  exact exQuit_bind _ _ (fun a => rfl)

theorem exQuit_on_mouse_move (hwnd : WindowHandle) (wparam : Nat) (lparam : Int) (st : St) :
    exQuit (on_mouse_move hwnd wparam lparam st) = false := by
  unfold on_mouse_move
  try dsimp only
  repeat' split
  all_goals rfl

theorem exQuit_on_set_cursor (hwnd : WindowHandle) (wparam : Nat) (lparam : Int) (st : St) :
    exQuit (on_set_cursor hwnd wparam lparam st) = false := by
  unfold on_set_cursor
  try dsimp only
  repeat' split
  all_goals rfl

theorem exQuit_on_mouse_leave (hwnd : WindowHandle) (wparam : Nat) (env : Env) (st : St) :
    exQuit (on_mouse_leave hwnd wparam env st) = false := rfl

theorem exQuit_on_mouse_input (hwnd : WindowHandle) (button : MouseButton)
    (button_state : ButtonState) (wparam : Nat) (lparam : Int) (st : St) :
    exQuit (on_mouse_input hwnd button button_state wparam lparam st) = false := rfl

theorem exQuit_on_mouse_wheel (hwnd : WindowHandle) (axis : MouseWheelAxis)
    (wparam : Nat) (lparam : Int) (env : Env) (st : St) :
    exQuit (on_mouse_wheel hwnd axis wparam lparam env st) = false := rfl

theorem exQuit_on_key_input (hwnd : WindowHandle) (key_state : KeyState)
    (wparam : Nat) (lparam : Int) (st : St) :
    exQuit (on_key_input hwnd key_state wparam lparam st) = false := rfl

theorem exQuit_on_char (hwnd : WindowHandle) (wparam : Nat) (st : St) :
    exQuit (on_char hwnd wparam st) = false := rfl

theorem exQuit_on_ime_set_context (hwnd : WindowHandle) (wparam : Nat) (lparam : Int)
    (st : St) :
    exQuit (on_ime_set_context hwnd wparam lparam st) = false := by
  unfold on_ime_set_context
  try dsimp only
  repeat' split
  all_goals rfl

theorem exQuit_on_ime_start_composition (hwnd : WindowHandle) (wparam : Nat)
    (lparam : Int) (env : Env) (st : St) :
    exQuit (on_ime_start_composition hwnd wparam lparam env st) = false := rfl

theorem exQuit_on_ime_composition (hwnd : WindowHandle) (env : Env) (st : St) :
    exQuit (on_ime_composition hwnd env st) = false := by
  unfold on_ime_composition
  try dsimp only
  repeat' split
  all_goals rfl

theorem exQuit_on_ime_end_composition (hwnd : WindowHandle) (wparam : Nat)
    (lparam : Int) (env : Env) (st : St) :
    exQuit (on_ime_end_composition hwnd wparam lparam env st) = false := rfl

theorem exQuit_on_sizing (hwnd : WindowHandle) (wparam : Nat) (lparam : Int)
    (env : Env) (st : St) :
    exQuit (on_sizing hwnd wparam lparam env st) = false := by
  unfold on_sizing
  try dsimp only
  repeat' split
  all_goals rfl

theorem exQuit_on_size (hwnd : WindowHandle) (wparam : Nat) (lparam : Int) (st : St) :
    exQuit (on_size hwnd wparam lparam st) = false := by
  unfold on_size
  try dsimp only
  repeat' split
  all_goals first
    | rfl
    | exact exQuit_bind _ _ (fun a => rfl)

theorem exQuit_on_window_pos_changed (hwnd : WindowHandle) (wparam : Nat) (lparam : Int)
    (env : Env) (st : St) :
    exQuit (on_window_pos_changed hwnd wparam lparam env st) = false := rfl

theorem exQuit_on_enter_size_move (hwnd : WindowHandle) (wparam : Nat) (lparam : Int)
    (st : St) :
    exQuit (on_enter_size_move hwnd wparam lparam st) = false := by
  unfold on_enter_size_move
  exact exQuit_bind _ _ (fun a => rfl)

theorem exQuit_on_exit_size_move (hwnd : WindowHandle) (wparam : Nat) (lparam : Int)
    (env : Env) (st : St) :
    exQuit (on_exit_size_move hwnd wparam lparam env st) = false := by
  unfold on_exit_size_move
  exact exQuit_bind _ _ (fun a => rfl)

theorem exQuit_on_activate (hwnd : WindowHandle) (wparam : Nat) (st : St) :
    exQuit (on_activate hwnd wparam st) = false := rfl

theorem exQuit_on_dpi_changed (hwnd : WindowHandle) (wparam : Nat) (env : Env) (st : St) :
    exQuit (on_dpi_changed hwnd wparam env st) = false := rfl

theorem exQuit_on_get_dpi_scaled_size (hwnd : WindowHandle) (wparam : Nat) (env : Env)
    (st : St) :
    exQuit (on_get_dpi_scaled_size hwnd wparam env st) = false := rfl

theorem exQuit_on_drop_files (hwnd : WindowHandle) (env : Env) (st : St) :
    exQuit (on_drop_files hwnd env st) = false := rfl

theorem exQuit_on_nc_create (hwnd : WindowHandle) (wparam : Nat) (lparam : Int) (st : St) :
    exQuit (on_nc_create hwnd wparam lparam st) = false := rfl

theorem exQuit_on_nc_hittest (hwnd : WindowHandle) (wparam : Nat) (lparam : Int)
    (env : Env) (st : St) :
    exQuit (on_nc_hittest hwnd wparam lparam env st) = false := by
  unfold on_nc_hittest
  try dsimp only
  repeat' split
  all_goals rfl

theorem exQuit_on_close (hwnd : WindowHandle) (wparam : Nat) (lparam : Int) (st : St) :
    exQuit (on_close hwnd wparam lparam st) = false := by
  unfold on_close
  try dsimp only
  repeat' split
  all_goals rfl

theorem exQuit_on_app (hwnd : WindowHandle) (msg wparam : Nat) (lparam : Int) (st : St) :
    exQuit (on_app hwnd msg wparam lparam st) = false := rfl

theorem exQuit_on_notify_icon (hwnd : WindowHandle) (wparam : Nat) (lparam : Int)
    (st : St) :
    exQuit (on_notify_icon hwnd wparam lparam st) = false := rfl

theorem exQuit_on_menu_command (hwnd : WindowHandle) (wparam : Nat) (lparam : Int)
    (st : St) :
    exQuit (on_menu_command hwnd wparam lparam st) = false := rfl

theorem exQuit_on_context_menu (hwnd : WindowHandle) (wparam : Nat) (lparam : Int)
    (st : St) :
    exQuit (on_context_menu hwnd wparam lparam st) = false := rfl

theorem exQuit_on_uah_draw_menu (hwnd : WindowHandle) (wparam : Nat) (lparam : Int)
    (st : St) :
    exQuit (on_uah_draw_menu hwnd wparam lparam st) = false := by
  unfold on_uah_draw_menu
  try dsimp only
  repeat' split
  all_goals rfl

theorem exQuit_on_uah_draw_menu_item (hwnd : WindowHandle) (wparam : Nat) (lparam : Int)
    (st : St) :
    exQuit (on_uah_draw_menu_item hwnd wparam lparam st) = false := by
  unfold on_uah_draw_menu_item
  try dsimp only
  repeat' split
  all_goals rfl

theorem exQuit_on_nc_paint (hwnd : WindowHandle) (wparam : Nat) (lparam : Int) (st : St) :
    exQuit (on_nc_paint hwnd wparam lparam st) = false := by
  unfold on_nc_paint
  exact exQuit_bind _ _ (fun a => rfl)

theorem exQuit_on_nc_activate (hwnd : WindowHandle) (wparam : Nat) (lparam : Int)
    (st : St) :
    exQuit (on_nc_activate hwnd wparam lparam st) = false := by
  unfold on_nc_activate
  exact exQuit_bind _ _ (fun a => rfl)

theorem exQuit_on_setting_change (hwnd : WindowHandle) (wparam : Nat) (lparam : Int)
    (env : Env) (st : St) :
    exQuit (on_setting_change hwnd wparam lparam env st) = false := by
  unfold on_setting_change
  try dsimp only
  repeat' split
  all_goals first
    | rfl
    | exact exQuit_bind _ _ (fun a => rfl)

theorem exQuit_xbutton (hwnd : WindowHandle) (button_state : ButtonState)
    (wparam : Nat) (lparam : Int) (st : St) :
    exQuit (wparam_to_button wparam >>= fun button =>
      on_mouse_input hwnd button button_state wparam lparam st) = false :=
  exQuit_bind _ _ (fun a => rfl)

theorem exQuit_bind_set_result (x : Except PanicPayload PRes) (res : LResult) :
    exQuit (x >>= fun r => Except.ok { r with result := res }) = exQuit x := by
  cases x
  · rw [except_bind_error_pr]
  · rw [except_bind_ok_pr]
    rfl

theorem window_proc_quit_eq (hwnd msg wparam : Nat) (lparam : Int) (env : Env) (st : St) :
    (window_proc hwnd msg wparam lparam env st).quit =
      exQuit (window_proc_body hwnd msg wparam lparam env st) := by
  unfold window_proc exQuit
  cases window_proc_body hwnd msg wparam lparam env st <;> rfl

set_option maxHeartbeats 1600000 in
/-- Every arm of the dispatch match other than the destroy arm leaves
the quit signal unposted. -/
theorem window_proc_body_quit_false (hwnd msg wparam : Nat) (lparam : Int)
    (env : Env) (st : St) (hne : msg ≠ WM_DESTROY) :
    exQuit (window_proc_body hwnd msg wparam lparam env st) = false := by
  unfold window_proc_body
  by_cases h1 : msg = WM_PAINT
  · rw [if_pos h1]
    exact exQuit_on_paint _ _ _
  rw [if_neg h1]
  by_cases h2 : msg = WM_NCPAINT
  · rw [if_pos h2]
    exact exQuit_on_nc_paint _ _ _ _
  rw [if_neg h2]
  by_cases h3 : msg = WM_UAHDRAWMENU
  · rw [if_pos h3]
    exact exQuit_on_uah_draw_menu _ _ _ _
  rw [if_neg h3]
  by_cases h4 : msg = WM_UAHDRAWMENUITEM
  · rw [if_pos h4]
    exact exQuit_on_uah_draw_menu_item _ _ _ _
  rw [if_neg h4]
  by_cases h5 : msg = WM_MOUSEMOVE
  · rw [if_pos h5]
    exact exQuit_on_mouse_move _ _ _ _
  rw [if_neg h5]
  by_cases h6 : msg = WM_SETCURSOR
  · rw [if_pos h6]
    exact exQuit_on_set_cursor _ _ _ _
  rw [if_neg h6]
  by_cases h7 : msg = WM_MOUSELEAVE
  · rw [if_pos h7]
    exact exQuit_on_mouse_leave _ _ _ _
  rw [if_neg h7]
  by_cases h8 : msg = WM_LBUTTONDOWN
  · rw [if_pos h8]
    exact (exQuit_bind_set_result _ _).trans (exQuit_on_mouse_input _ _ _ _ _ _)
  rw [if_neg h8]
  by_cases h9 : msg = WM_RBUTTONDOWN
  · rw [if_pos h9]
    exact exQuit_on_mouse_input _ _ _ _ _ _
  rw [if_neg h9]
  by_cases h10 : msg = WM_MBUTTONDOWN
  · rw [if_pos h10]
    exact exQuit_on_mouse_input _ _ _ _ _ _
  rw [if_neg h10]
  by_cases h11 : msg = WM_XBUTTONDOWN
  · rw [if_pos h11]
    exact exQuit_xbutton _ _ _ _ _
  rw [if_neg h11]
  by_cases h12 : msg = WM_LBUTTONUP
  · rw [if_pos h12]
    exact exQuit_on_mouse_input _ _ _ _ _ _
  rw [if_neg h12]
  by_cases h13 : msg = WM_RBUTTONUP
  · rw [if_pos h13]
    exact (exQuit_bind_set_result _ _).trans (exQuit_on_mouse_input _ _ _ _ _ _)
  rw [if_neg h13]
  by_cases h14 : msg = WM_MBUTTONUP
  · rw [if_pos h14]
    exact (exQuit_bind_set_result _ _).trans (exQuit_on_mouse_input _ _ _ _ _ _)
  rw [if_neg h14]
  by_cases h15 : msg = WM_XBUTTONUP
  · rw [if_pos h15]
    exact exQuit_xbutton _ _ _ _ _
  rw [if_neg h15]
  by_cases h16 : msg = WM_MOUSEWHEEL
  · rw [if_pos h16]
    exact exQuit_on_mouse_wheel _ _ _ _ _ _
  rw [if_neg h16]
  by_cases h17 : msg = WM_MOUSEHWHEEL
  · rw [if_pos h17]
    exact exQuit_on_mouse_wheel _ _ _ _ _ _
  rw [if_neg h17]
  by_cases h18 : OFFSET_WM_APP ≤ msg ∧ msg < 0xbfff
  · rw [if_pos h18]
    exact exQuit_on_app _ _ _ _ _
  rw [if_neg h18]
  by_cases h19 : msg = WM_KEYDOWN
  · rw [if_pos h19]
    exact exQuit_on_key_input _ _ _ _ _
  rw [if_neg h19]
  by_cases h20 : msg = WM_KEYUP
  · rw [if_pos h20]
    exact exQuit_on_key_input _ _ _ _ _
  rw [if_neg h20]
  by_cases h21 : msg = WM_CHAR
  · rw [if_pos h21]
    exact exQuit_on_char _ _ _
  rw [if_neg h21]
  by_cases h22 : msg = WM_APP_NOTIFY_ICON
  · rw [if_pos h22]
    exact exQuit_on_notify_icon _ _ _ _
  rw [if_neg h22]
  by_cases h23 : msg = WM_IME_SETCONTEXT
  · rw [if_pos h23]
    exact exQuit_on_ime_set_context _ _ _ _
  rw [if_neg h23]
  by_cases h24 : msg = WM_IME_STARTCOMPOSITION
  · rw [if_pos h24]
    exact exQuit_on_ime_start_composition _ _ _ _ _
  rw [if_neg h24]
  by_cases h25 : msg = WM_IME_COMPOSITION
  · rw [if_pos h25]
    exact exQuit_on_ime_composition _ _ _
  rw [if_neg h25]
  by_cases h26 : msg = WM_IME_ENDCOMPOSITION
  · rw [if_pos h26]
    exact exQuit_on_ime_end_composition _ _ _ _ _
  rw [if_neg h26]
  by_cases h27 : msg = WM_SIZING
  · rw [if_pos h27]
    exact exQuit_on_sizing _ _ _ _ _
  rw [if_neg h27]
  by_cases h28 : msg = WM_SIZE
  · rw [if_pos h28]
    exact exQuit_on_size _ _ _ _
  rw [if_neg h28]
  by_cases h29 : msg = WM_WINDOWPOSCHANGED
  · rw [if_pos h29]
    exact exQuit_on_window_pos_changed _ _ _ _ _
  rw [if_neg h29]
  by_cases h30 : msg = WM_ENTERSIZEMOVE
  · rw [if_pos h30]
    exact exQuit_on_enter_size_move _ _ _ _
  rw [if_neg h30]
  by_cases h31 : msg = WM_EXITSIZEMOVE
  · rw [if_pos h31]
    exact exQuit_on_exit_size_move _ _ _ _ _
  rw [if_neg h31]
  by_cases h32 : msg = WM_ACTIVATE
  · rw [if_pos h32]
    exact exQuit_on_activate _ _ _
  rw [if_neg h32]
  by_cases h33 : msg = WM_NCACTIVATE
  · rw [if_pos h33]
    exact exQuit_on_nc_activate _ _ _ _
  rw [if_neg h33]
  by_cases h34 : msg = WM_DPICHANGED
  · rw [if_pos h34]
    exact exQuit_on_dpi_changed _ _ _ _
  rw [if_neg h34]
  by_cases h35 : msg = WM_GETDPISCALEDSIZE
  · rw [if_pos h35]
    exact exQuit_on_get_dpi_scaled_size _ _ _ _
  rw [if_neg h35]
  by_cases h36 : msg = WM_DROPFILES
  · rw [if_pos h36]
    exact exQuit_on_drop_files _ _ _
  rw [if_neg h36]
  by_cases h37 : msg = WM_NCCREATE
  · rw [if_pos h37]
    exact exQuit_on_nc_create _ _ _ _
  rw [if_neg h37]
  by_cases h38 : msg = WM_NCHITTEST
  · rw [if_pos h38]
    exact exQuit_on_nc_hittest _ _ _ _ _
  rw [if_neg h38]
  by_cases h39 : msg = WM_MENUCOMMAND
  · rw [if_pos h39]
    exact exQuit_on_menu_command _ _ _ _
  rw [if_neg h39]
  by_cases h40 : msg = WM_CONTEXTMENU
  · rw [if_pos h40]
    exact exQuit_on_context_menu _ _ _ _
  rw [if_neg h40]
  by_cases h41 : msg = WM_SETTINGCHANGE
  · rw [if_pos h41]
    exact exQuit_on_setting_change _ _ _ _ _
  rw [if_neg h41]
  by_cases h42 : msg = WM_CLOSE
  · rw [if_pos h42]
    exact exQuit_on_close _ _ _ _
  rw [if_neg h42]
  by_cases h43 : msg = WM_DESTROY
  · exact absurd h43 hne
  rw [if_neg h43]
  rfl

/-- Claim C2: for every destroy notification for a tracked window, the
dispatch procedure sends the Closed event for that window, removes the
window's record from the registry, and posts the loop-termination
signal if and only if the registry is empty after that removal; in
particular with two live windows destroying one does not terminate the
loop while destroying the last one does, and no message identity other
than the destroy notification ever makes dispatch post the quit signal. -/
theorem destroy_terminates_iff_registry_empty (hwnd wparam : Nat) (lparam : Int)
    (env : Env) (st : St) (obj : Object)
    (hobj : alist_get st.ctx.window_map hwnd = some obj) :
    (window_proc hwnd WM_DESTROY wparam lparam env st).unwind = none ∧
    (window_proc hwnd WM_DESTROY wparam lparam env st).st.ctx.trace =
      st.ctx.trace ++ [(hwnd, Event.Closed)] ∧
    (window_proc hwnd WM_DESTROY wparam lparam env st).st.ctx.window_map =
      alist_remove st.ctx.window_map hwnd ∧
    (window_proc hwnd WM_DESTROY wparam lparam env st).quit =
      (alist_remove st.ctx.window_map hwnd).isEmpty ∧
    (∀ (msg wparam2 : Nat) (lparam2 : Int) (env2 : Env) (st2 : St),
      (window_proc hwnd msg wparam2 lparam2 env2 st2).quit = true → msg = WM_DESTROY) := by
  have hbody := window_proc_body_at_destroy hwnd wparam lparam env st
  have hsend : Context.send_event hwnd Event.Closed st.ctx =
      st.ctx.do_send hwnd obj.event_tx Event.Closed obj.kind := by
    simp [Context.send_event, hobj]
  have hrem : alist_get (st.ctx.do_send hwnd obj.event_tx Event.Closed obj.kind).window_map hwnd
      = some obj := hobj
  refine ⟨?_, ?_, ?_, ?_, ?_⟩
  · unfold window_proc
    rw [hbody]
    unfold on_destroy
    rfl
  · unfold window_proc
    rw [hbody]
    unfold on_destroy
    dsimp only
    rw [hsend]
    simp [Context.remove_window, hobj, hrem, Ctx.do_send]
  · unfold window_proc
    rw [hbody]
    unfold on_destroy
    dsimp only
    rw [hsend]
    simp [Context.remove_window, hobj, hrem, Ctx.do_send]
  · unfold window_proc
    rw [hbody]
    unfold on_destroy
    dsimp only
    rw [hsend]
    simp [Context.remove_window, hobj, hrem, Ctx.do_send, Context.is_empty]
  · intro msg wparam2 lparam2 env2 st2 hq
    by_contra hne
    rw [window_proc_quit_eq,
      window_proc_body_quit_false hwnd msg wparam2 lparam2 env2 st2 hne] at hq
    exact Bool.noConfusion hq

theorem destroy_terminates_iff_registry_empty_witness :
    (window_proc 1 WM_DESTROY 0 0 env0
      ⟨{ window_map := [(1, ⟨WindowKind.Window 1, 0, props0, []⟩),
                        (2, ⟨WindowKind.Window 2, 0, props0, []⟩)]
         event_txs := [(0, 0)]
         panic_receiver := 0
         queues := [(0, [])]
         trace := [] }, none, [], false⟩).quit =
      (alist_remove [(1, (⟨WindowKind.Window 1, 0, props0, []⟩ : Object)),
                     (2, (⟨WindowKind.Window 2, 0, props0, []⟩ : Object))] 1).isEmpty ∧
    (window_proc 2 WM_DESTROY 0 0 env0
      ⟨{ window_map := [(2, ⟨WindowKind.Window 2, 0, props0, []⟩)]
         event_txs := [(0, 0)]
         panic_receiver := 0
         queues := [(0, [])]
         trace := [] }, none, [], false⟩).quit =
      (alist_remove [(2, (⟨WindowKind.Window 2, 0, props0, []⟩ : Object))] 2).isEmpty :=
  ⟨(destroy_terminates_iff_registry_empty 1 0 0 env0
      ⟨{ window_map := [(1, ⟨WindowKind.Window 1, 0, props0, []⟩),
                        (2, ⟨WindowKind.Window 2, 0, props0, []⟩)]
         event_txs := [(0, 0)]
         panic_receiver := 0
         queues := [(0, [])]
         trace := [] }, none, [], false⟩
      ⟨WindowKind.Window 1, 0, props0, []⟩ (by decide)).2.2.2.1,
   (destroy_terminates_iff_registry_empty 2 0 0 env0
      ⟨{ window_map := [(2, ⟨WindowKind.Window 2, 0, props0, []⟩)]
         event_txs := [(0, 0)]
         panic_receiver := 0
         queues := [(0, [])]
         trace := [] }, none, [], false⟩
      ⟨WindowKind.Window 2, 0, props0, []⟩ (by decide)).2.2.2.1⟩

/-! ## C1 -/

theorem close_fold_misc (l : List (WindowHandle × Object)) (c : Ctx) :
    (l.foldl (fun acc kv => acc.do_send kv.1 kv.2.event_tx Event.Closed kv.2.kind) c).event_txs
        = c.event_txs ∧
    (l.foldl (fun acc kv => acc.do_send kv.1 kv.2.event_tx Event.Closed kv.2.kind) c).panic_receiver
        = c.panic_receiver := by
  induction l generalizing c with
  | nil => exact ⟨rfl, rfl⟩
  | cons hd tl ih => exact ih _

theorem close_fold_queue (l : List (WindowHandle × Object)) (c : Ctx) (ch : Nat)
    (q : List RecvEventOrPanic) (hq : alist_get c.queues ch = some q) :
    ∃ closeds,
      alist_get ((l.foldl (fun acc kv => acc.do_send kv.1 kv.2.event_tx Event.Closed kv.2.kind) c).queues) ch
        = some (q ++ closeds) ∧
      ∀ x ∈ closeds, ∃ k, x = RecvEventOrPanic.event (Event.Closed, k) := by
  induction l generalizing c q with
  | nil => exact ⟨[], by simpa using hq, by simp⟩
  | cons hd tl ih =>
    by_cases htx : hd.2.event_tx = ch
    · have hq2 : alist_get (c.do_send hd.1 hd.2.event_tx Event.Closed hd.2.kind).queues ch
          = some (q ++ [RecvEventOrPanic.event (Event.Closed, hd.2.kind)]) := by
        unfold Ctx.do_send
        dsimp only
        rw [htx, alist_get_update_eq, hq]
        rfl
      obtain ⟨cl, hget, hcl⟩ := ih _ _ hq2
      refine ⟨RecvEventOrPanic.event (Event.Closed, hd.2.kind) :: cl, ?_, ?_⟩
      · rw [List.foldl_cons, hget]
        simp
      · intro x hx
        rcases List.mem_cons.mp hx with h | h
        · exact ⟨hd.2.kind, h⟩
        · exact hcl x h
    · have hq2 : alist_get (c.do_send hd.1 hd.2.event_tx Event.Closed hd.2.kind).queues ch
          = some q := by
        unfold Ctx.do_send
        dsimp only
        rw [alist_get_update_ne _ _ _ _ htx]
        exact hq
      obtain ⟨cl, hget, hcl⟩ := ih _ _ hq2
      exact ⟨cl, by rw [List.foldl_cons]; exact hget, hcl⟩

theorem close_all_windows_queue (c : Ctx) (ch : Nat) (q : List RecvEventOrPanic)
    (hq : alist_get c.queues ch = some q) :
    ∃ closeds,
      alist_get (Context.close_all_windows c).queues ch = some (q ++ closeds) ∧
      ∀ x ∈ closeds, ∃ k, x = RecvEventOrPanic.event (Event.Closed, k) := by
  unfold Context.close_all_windows
  exact close_fold_queue c.window_map c ch q hq

theorem send_panic_queue (c : Ctx) (p : PanicPayload) (ch : Nat)
    (q : List RecvEventOrPanic)
    (htx : alist_get c.event_txs c.panic_receiver = some ch)
    (hq : alist_get c.queues ch = some q) :
    ∃ closeds,
      alist_get (Context.send_panic p c).queues ch
        = some (q ++ closeds ++ [RecvEventOrPanic.panic p]) ∧
      ∀ x ∈ closeds, ∃ k, x = RecvEventOrPanic.event (Event.Closed, k) := by
  obtain ⟨cl, hget, hcl⟩ := close_all_windows_queue c ch q hq
  have hmisc := close_fold_misc c.window_map c
  have hscrut : alist_get (Context.close_all_windows c).event_txs
      (Context.close_all_windows c).panic_receiver = some ch := by
    unfold Context.close_all_windows
    rw [hmisc.1, hmisc.2]
    exact htx
  unfold Context.send_panic
  dsimp only
  rw [hscrut]
  dsimp only
  rw [alist_get_update_eq, hget]
  exact ⟨cl, by simp, hcl⟩

/-- Claim C1 counterexample: with one live window bound to the panic
receiver, a task panic makes the loop break with the fault handed to
send_panic, but the next recv() on the panic receiver returns the
ordinary Closed event enqueued by the shutdown sequence, not the
re-raised fault, so the claim's next recv() does not re-raise the
panic. -/
theorem next_recv_after_task_panic_is_closed_event :
    ui_loop_step
        (LoopEvent.taskWake [fun st => (st, some (PanicPayload.message "boom"))])
        ⟨{ window_map := [(5, ⟨WindowKind.Window 5, 0, props0, []⟩)]
           event_txs := [(0, 0)]
           panic_receiver := 0
           queues := [(0, [])]
           trace := [] }, none, [], false⟩ =
      LoopStep.exit 1
        ⟨Context.send_panic (PanicPayload.message "boom")
          { window_map := [(5, ⟨WindowKind.Window 5, 0, props0, []⟩)]
            event_txs := [(0, 0)]
            panic_receiver := 0
            queues := [(0, [])]
            trace := [] }, none, [], false⟩ ∧
    (EventReceiver.recv ((alist_get (Context.send_panic (PanicPayload.message "boom")
        { window_map := [(5, ⟨WindowKind.Window 5, 0, props0, []⟩)]
          event_txs := [(0, 0)]
          panic_receiver := 0
          queues := [(0, [])]
          trace := [] }).queues 0).getD [])).1 =
      RecvOutcome.event (Event.Closed, WindowKind.Window 5) ∧
    (EventReceiver.recv ((alist_get (Context.send_panic (PanicPayload.message "boom")
        { window_map := [(5, ⟨WindowKind.Window 5, 0, props0, []⟩)]
          event_txs := [(0, 0)]
          panic_receiver := 0
          queues := [(0, [])]
          trace := [] }).queues 0).getD [])).1 ≠
      RecvOutcome.panicked (PanicPayload.message "boom") := by
  refine ⟨by rfl, by rfl, ?_⟩
  intro h
  simp [EventReceiver.recv, Context.send_panic, Context.close_all_windows, Ctx.do_send,
    alist_get, alist_update, List.foldl] at h

/-- Claim C1 (amended): for every task closure posted to the UI thread
that panics with payload p, the panic is caught by the message loop
boundary, handed to Context::send_panic, and appended to the designated
panic receiver's channel after the Closed events that the shutdown
sequence sends for the windows bound to that channel; the recv() call
that reaches the fault element re-raises a panic whose payload is
exactly p (immediately, when no window is bound to that channel), and
recv() never returns a carried fault as an ordinary event. -/
theorem task_panic_reraised_on_panic_receiver (ts : List Task) (st st2 : St)
    (p : PanicPayload) (ch : Nat) (q : List RecvEventOrPanic)
    (hrun : run_tasks ts st = (st2, some p))
    (htx : alist_get st2.ctx.event_txs st2.ctx.panic_receiver = some ch)
    (hq : alist_get st2.ctx.queues ch = some q) :
    ui_loop_step (LoopEvent.taskWake ts) st =
      LoopStep.exit 1 { st2 with ctx := Context.send_panic p st2.ctx } ∧
    (∃ closeds,
      alist_get (Context.send_panic p st2.ctx).queues ch
        = some (q ++ closeds ++ [RecvEventOrPanic.panic p]) ∧
      ∀ x ∈ closeds, ∃ k, x = RecvEventOrPanic.event (Event.Closed, k)) ∧
    (∀ rest, EventReceiver.recv (RecvEventOrPanic.panic p :: rest) =
      (RecvOutcome.panicked p, rest)) ∧
    (∀ (p2 : PanicPayload) (rest : List RecvEventOrPanic) (e : Event × WindowKind),
      (EventReceiver.recv (RecvEventOrPanic.panic p2 :: rest)).1 ≠ RecvOutcome.event e) := by
  refine ⟨?_, send_panic_queue st2.ctx p ch q htx hq, fun rest => rfl, ?_⟩
  · unfold ui_loop_step
    dsimp only
    rw [hrun]
  · intro p2 rest e h
    simp [EventReceiver.recv] at h

theorem task_panic_reraised_on_panic_receiver_witness :
    ui_loop_step
        (LoopEvent.taskWake [fun st => (st, some (PanicPayload.message "boom"))])
        ⟨{ window_map := []
           event_txs := [(0, 0)]
           panic_receiver := 0
           queues := [(0, [])]
           trace := [] }, none, [], false⟩ =
      LoopStep.exit 1
        ⟨Context.send_panic (PanicPayload.message "boom")
          { window_map := []
            event_txs := [(0, 0)]
            panic_receiver := 0
            queues := [(0, [])]
            trace := [] }, none, [], false⟩ :=
  (task_panic_reraised_on_panic_receiver
    [fun st => (st, some (PanicPayload.message "boom"))]
    ⟨{ window_map := []
       event_txs := [(0, 0)]
       panic_receiver := 0
       queues := [(0, [])]
       trace := [] }, none, [], false⟩
    ⟨{ window_map := []
       event_txs := [(0, 0)]
       panic_receiver := 0
       queues := [(0, [])]
       trace := [] }, none, [], false⟩
    (PanicPayload.message "boom") 0 [] rfl rfl rfl).1

/-- Claim C5 witness helper is the routing conjunct of the suppression
theorem at a concrete state with the resizing flag set. -/
theorem restored_resized_suppression_witness :
    window_proc_body 1 WM_SIZE 0 0 env0
      ⟨{ window_map := [(1, ⟨WindowKind.Window 1, 0, { props0 with resizing := true }, []⟩)]
         event_txs := [(0, 0)]
         panic_receiver := 0
         queues := [(0, [])]
         trace := [] }, none, [], false⟩ =
      on_size 1 0 0
      ⟨{ window_map := [(1, ⟨WindowKind.Window 1, 0, { props0 with resizing := true }, []⟩)]
         event_txs := [(0, 0)]
         panic_receiver := 0
         queues := [(0, [])]
         trace := [] }, none, [], false⟩ :=
  (restored_resized_suppression 1 0 0 env0
    ⟨{ window_map := [(1, ⟨WindowKind.Window 1, 0, { props0 with resizing := true }, []⟩)]
       event_txs := [(0, 0)]
       panic_receiver := 0
       queues := [(0, [])]
       trace := [] }, none, [], false⟩ (by decide)).1

theorem logical_roundtrip_at_dpi_multiples_witness :
    to_logical_value (to_physical_value 128 (DEFAULT_DPI * 2)) (DEFAULT_DPI * 2) = 128 ∧
    (LogicalSize.to_physical ⟨128, 128⟩ (DEFAULT_DPI * 2)).to_logical (DEFAULT_DPI * 2) =
      (⟨128, 128⟩ : LogicalSize Nat) ∧
    (LogicalPosition.to_physical ⟨128, 128⟩ (DEFAULT_DPI * 2)).to_logical (DEFAULT_DPI * 2) =
      (⟨128, 128⟩ : LogicalPosition Nat) ∧
    to_physical_value 128 192 = 256 ∧ to_logical_value 256 192 = 128 :=
  logical_roundtrip_at_dpi_multiples 128 2 ⟨128, 128⟩ ⟨128, 128⟩ (by decide)
    (by decide) (by decide) (by decide) (by decide) (by decide)

end Wiard
